import Mathlib

/-!
# Password generator and validator (vp.go)

A shallow embedding of the two core functions of `src/vp.go`:

* `generatePassword` : draws `length` indices from a random source and emits the
  bytes of `charset` at those indices;
* `validatePassword` : scans the runes of a password, records which character
  classes occur, and reports the first failing rule.

Go strings are byte sequences.  `len(s)` counts bytes, `s[i]` is a byte, and
`for _, c := range s` walks UTF-8 decoded runes (an ill-formed byte yields
U+FFFD and advances by one byte).  The embedding keeps all three views.

Modelling choices:

* a Go `int` is an `Int`, a rune is a `Nat`; no arithmetic of the program can
  overflow (`i++` runs only while `i < length`);
* the random source is a function from the call number and the requested bound to
  an answer, and `generatePassword` also reports the bounds it asked for;
* the classes `unicode.IsUpper`, `unicode.IsLower`, `unicode.IsDigit` are range
  tables of the general categories Lu, Ll, Nd, here those of Unicode 14.0.0.  A Go
  toolchain carries the tables of the Unicode version it was built with, which differ
  from these in the characters added or reclassified since.  The proofs use of the
  tables only what holds in every version: that they are ordered and pairwise apart,
  what they say of the ASCII characters and of U+FFFD, and the membership of the few
  runes named in the statements (U+00C9, U+00E9, U+0663).
-/

namespace Vp

/-! ## Go strings -/

/-- A Go `byte`. -/
abbrev Byte := Fin 256

/-- A Go `string`: an immutable sequence of bytes; `len(s)` is `s.length`. -/
abbrev GoString := List Byte

/-- Truncation of a number to a byte. -/
def byte (n : Nat) : Byte := ⟨n % 256, Nat.mod_lt n (by decide)⟩

/-- UTF-8 encoding of one code point, as the Go compiler stores the characters of a
string literal. -/
def encodeRune (r : Nat) : GoString :=
  if r < 0x80 then [byte r]
  else if r < 0x800 then [byte (0xC0 + r / 64), byte (0x80 + r % 64)]
  else if r < 0x10000 then
    [byte (0xE0 + r / 4096), byte (0x80 + r / 64 % 64), byte (0x80 + r % 64)]
  else
    [byte (0xF0 + r / 262144), byte (0x80 + r / 4096 % 64), byte (0x80 + r / 64 % 64),
      byte (0x80 + r % 64)]

/-- The bytes of a Go string literal written with the given characters. -/
def lit (s : String) : GoString := s.data.flatMap (fun c => encodeRune c.toNat)

/-! ## The generator -/

/-- The constant `charset` (vp.go line 11). -/
def charset : GoString :=
  lit "abcdefghijklmnopqrstuvwxyzABCDEFGHIJKLMNOPQRSTUVWXYZ0123456789!@#$%^&*()"

/-- The random source behind `rand.Int(rand.Reader, max)`: the answer to the
`k`-th call (counted from 0) when asked for an index below `max` is either an
error (with its text) or a number. -/
structure RandReader where
  draw : Nat → Nat → Except String Nat

/-- How a call of `generatePassword` ends: it returns its pair `(string, error)`
(`err = none` is Go's `nil`), or the index expression `charset[...]` panics. -/
inductive GenOutcome where
  | returned (password : GoString) (err : Option String)
  | panicked
  deriving DecidableEq, Repr

/-- The loop `for i := 0; i < length; i++` of `generatePassword`, with `n` the
number of iterations still to run (`length - i`), `password` the builder's content
and `reqs` the bounds requested from the random source so far, oldest first. -/
def genLoop (rd : RandReader) : Nat → GoString → List Nat → GenOutcome × List Nat
  | 0, password, reqs => (GenOutcome.returned password none, reqs)
  | n + 1, password, reqs =>
    match rd.draw reqs.length charset.length with
    | Except.error e =>
      (GenOutcome.returned [] (some ("failed to generate random character: " ++ e)),
        reqs ++ [charset.length])
    | Except.ok charIndex =>
      match charset.get? charIndex with
      | none => (GenOutcome.panicked, reqs ++ [charset.length])
      | some b => genLoop rd n (password ++ [b]) (reqs ++ [charset.length])

/-- The function `generatePassword(length int) (string, error)`.  The second
component lists the bounds of the calls made to the random source. -/
def generatePassword (rd : RandReader) (length : Int) : GenOutcome × List Nat :=
  if length < 8 then
    (GenOutcome.returned [] (some "password length must be at least 8 characters"), [])
  else
    genLoop rd length.toNat [] []

/-! ## Ranging over a string

The statement `for _, char := range password` visits the runes of the string:
a byte below `0x80` is its own rune; otherwise `runtime.decoderune` decodes one
UTF-8 sequence, and answers U+FFFD with a width of one byte when the bytes at
that position are not a well-formed sequence. -/

/-- The constant `runeError` (U+FFFD). -/
def runeError : Nat := 0xFFFD

/-- Continuation bytes: `locb <= b && b <= hicb`. -/
def isCont (b : Byte) : Bool := decide (0x80 ≤ b.val) && decide (b.val ≤ 0xBF)

/-- The function `runtime.decoderune` applied at the front of `s`: the rune found
there and the number of bytes it occupies. -/
def decoderune : GoString → Nat × Nat
  | [] => (runeError, 1)
  | s0 :: rest =>
    if 0xC0 ≤ s0.val ∧ s0.val < 0xE0 then
      match rest with
      | s1 :: _ =>
        if isCont s1 then
          let r := ((s0.val &&& 0x1F) <<< 6) ||| (s1.val &&& 0x3F)
          if 0x7F < r then (r, 2) else (runeError, 1)
        else (runeError, 1)
      | [] => (runeError, 1)
    else if 0xE0 ≤ s0.val ∧ s0.val < 0xF0 then
      match rest with
      | s1 :: s2 :: _ =>
        if isCont s1 && isCont s2 then
          let r := ((s0.val &&& 0x0F) <<< 12) ||| ((s1.val &&& 0x3F) <<< 6) ||| (s2.val &&& 0x3F)
          if 0x7FF < r ∧ ¬ (0xD800 ≤ r ∧ r ≤ 0xDFFF) then (r, 3) else (runeError, 1)
        else (runeError, 1)
      | _ => (runeError, 1)
    else if 0xF0 ≤ s0.val ∧ s0.val < 0xF8 then
      match rest with
      | s1 :: s2 :: s3 :: _ =>
        if isCont s1 && isCont s2 && isCont s3 then
          let r := ((s0.val &&& 0x07) <<< 18) ||| ((s1.val &&& 0x3F) <<< 12)
            ||| ((s2.val &&& 0x3F) <<< 6) ||| (s3.val &&& 0x3F)
          if 0xFFFF < r ∧ r ≤ 0x10FFFF then (r, 4) else (runeError, 1)
        else (runeError, 1)
      | _ => (runeError, 1)
    else (runeError, 1)

/-- The runes a `range` loop visits in the rest of a string, when the next `skip`
bytes belong to the rune decoded last. -/
def runesFrom : Nat → GoString → List Nat
  | _, [] => []
  | skip + 1, _ :: rest => runesFrom skip rest
  | 0, b :: rest =>
    if b.val < 0x80 then b.val :: runesFrom 0 rest
    else (decoderune (b :: rest)).1 :: runesFrom ((decoderune (b :: rest)).2 - 1) rest

/-- The runes visited by `for _, char := range s`, in order. -/
def runes (s : GoString) : List Nat := runesFrom 0 s

/-! ## Character classes of package `unicode` -/

/-- Membership of a rune in a range table (`unicode.Is`). -/
def inTable (t : List (Nat × Nat)) (r : Nat) : Bool :=
  t.any (fun p => decide (p.1 ≤ r) && decide (r ≤ p.2))

/-- Ranges of the table `unicode.Upper` (general category Lu, Unicode 14.0.0), as
inclusive pairs `(lo, hi)`. -/
def tableLu : List (Nat × Nat) :=
  [(0x0041, 0x005A), (0x00C0, 0x00D6), (0x00D8, 0x00DE), (0x0100, 0x0100), (0x0102, 0x0102),
   (0x0104, 0x0104), (0x0106, 0x0106), (0x0108, 0x0108), (0x010A, 0x010A), (0x010C, 0x010C),
   (0x010E, 0x010E), (0x0110, 0x0110), (0x0112, 0x0112), (0x0114, 0x0114), (0x0116, 0x0116),
   (0x0118, 0x0118), (0x011A, 0x011A), (0x011C, 0x011C), (0x011E, 0x011E), (0x0120, 0x0120),
   (0x0122, 0x0122), (0x0124, 0x0124), (0x0126, 0x0126), (0x0128, 0x0128), (0x012A, 0x012A),
   (0x012C, 0x012C), (0x012E, 0x012E), (0x0130, 0x0130), (0x0132, 0x0132), (0x0134, 0x0134),
   (0x0136, 0x0136), (0x0139, 0x0139), (0x013B, 0x013B), (0x013D, 0x013D), (0x013F, 0x013F),
   (0x0141, 0x0141), (0x0143, 0x0143), (0x0145, 0x0145), (0x0147, 0x0147), (0x014A, 0x014A),
   (0x014C, 0x014C), (0x014E, 0x014E), (0x0150, 0x0150), (0x0152, 0x0152), (0x0154, 0x0154),
   (0x0156, 0x0156), (0x0158, 0x0158), (0x015A, 0x015A), (0x015C, 0x015C), (0x015E, 0x015E),
   (0x0160, 0x0160), (0x0162, 0x0162), (0x0164, 0x0164), (0x0166, 0x0166), (0x0168, 0x0168),
   (0x016A, 0x016A), (0x016C, 0x016C), (0x016E, 0x016E), (0x0170, 0x0170), (0x0172, 0x0172),
   (0x0174, 0x0174), (0x0176, 0x0176), (0x0178, 0x0179), (0x017B, 0x017B), (0x017D, 0x017D),
   (0x0181, 0x0182), (0x0184, 0x0184), (0x0186, 0x0187), (0x0189, 0x018B), (0x018E, 0x0191),
   (0x0193, 0x0194), (0x0196, 0x0198), (0x019C, 0x019D), (0x019F, 0x01A0), (0x01A2, 0x01A2),
   (0x01A4, 0x01A4), (0x01A6, 0x01A7), (0x01A9, 0x01A9), (0x01AC, 0x01AC), (0x01AE, 0x01AF),
   (0x01B1, 0x01B3), (0x01B5, 0x01B5), (0x01B7, 0x01B8), (0x01BC, 0x01BC), (0x01C4, 0x01C4),
   (0x01C7, 0x01C7), (0x01CA, 0x01CA), (0x01CD, 0x01CD), (0x01CF, 0x01CF), (0x01D1, 0x01D1),
   (0x01D3, 0x01D3), (0x01D5, 0x01D5), (0x01D7, 0x01D7), (0x01D9, 0x01D9), (0x01DB, 0x01DB),
   (0x01DE, 0x01DE), (0x01E0, 0x01E0), (0x01E2, 0x01E2), (0x01E4, 0x01E4), (0x01E6, 0x01E6),
   (0x01E8, 0x01E8), (0x01EA, 0x01EA), (0x01EC, 0x01EC), (0x01EE, 0x01EE), (0x01F1, 0x01F1),
   (0x01F4, 0x01F4), (0x01F6, 0x01F8), (0x01FA, 0x01FA), (0x01FC, 0x01FC), (0x01FE, 0x01FE),
   (0x0200, 0x0200), (0x0202, 0x0202), (0x0204, 0x0204), (0x0206, 0x0206), (0x0208, 0x0208),
   (0x020A, 0x020A), (0x020C, 0x020C), (0x020E, 0x020E), (0x0210, 0x0210), (0x0212, 0x0212),
   (0x0214, 0x0214), (0x0216, 0x0216), (0x0218, 0x0218), (0x021A, 0x021A), (0x021C, 0x021C),
   (0x021E, 0x021E), (0x0220, 0x0220), (0x0222, 0x0222), (0x0224, 0x0224), (0x0226, 0x0226),
   (0x0228, 0x0228), (0x022A, 0x022A), (0x022C, 0x022C), (0x022E, 0x022E), (0x0230, 0x0230),
   (0x0232, 0x0232), (0x023A, 0x023B), (0x023D, 0x023E), (0x0241, 0x0241), (0x0243, 0x0246),
   (0x0248, 0x0248), (0x024A, 0x024A), (0x024C, 0x024C), (0x024E, 0x024E), (0x0370, 0x0370),
   (0x0372, 0x0372), (0x0376, 0x0376), (0x037F, 0x037F), (0x0386, 0x0386), (0x0388, 0x038A),
   (0x038C, 0x038C), (0x038E, 0x038F), (0x0391, 0x03A1), (0x03A3, 0x03AB), (0x03CF, 0x03CF),
   (0x03D2, 0x03D4), (0x03D8, 0x03D8), (0x03DA, 0x03DA), (0x03DC, 0x03DC), (0x03DE, 0x03DE),
   (0x03E0, 0x03E0), (0x03E2, 0x03E2), (0x03E4, 0x03E4), (0x03E6, 0x03E6), (0x03E8, 0x03E8),
   (0x03EA, 0x03EA), (0x03EC, 0x03EC), (0x03EE, 0x03EE), (0x03F4, 0x03F4), (0x03F7, 0x03F7),
   (0x03F9, 0x03FA), (0x03FD, 0x042F), (0x0460, 0x0460), (0x0462, 0x0462), (0x0464, 0x0464),
   (0x0466, 0x0466), (0x0468, 0x0468), (0x046A, 0x046A), (0x046C, 0x046C), (0x046E, 0x046E),
   (0x0470, 0x0470), (0x0472, 0x0472), (0x0474, 0x0474), (0x0476, 0x0476), (0x0478, 0x0478),
   (0x047A, 0x047A), (0x047C, 0x047C), (0x047E, 0x047E), (0x0480, 0x0480), (0x048A, 0x048A),
   (0x048C, 0x048C), (0x048E, 0x048E), (0x0490, 0x0490), (0x0492, 0x0492), (0x0494, 0x0494),
   (0x0496, 0x0496), (0x0498, 0x0498), (0x049A, 0x049A), (0x049C, 0x049C), (0x049E, 0x049E),
   (0x04A0, 0x04A0), (0x04A2, 0x04A2), (0x04A4, 0x04A4), (0x04A6, 0x04A6), (0x04A8, 0x04A8),
   (0x04AA, 0x04AA), (0x04AC, 0x04AC), (0x04AE, 0x04AE), (0x04B0, 0x04B0), (0x04B2, 0x04B2),
   (0x04B4, 0x04B4), (0x04B6, 0x04B6), (0x04B8, 0x04B8), (0x04BA, 0x04BA), (0x04BC, 0x04BC),
   (0x04BE, 0x04BE), (0x04C0, 0x04C1), (0x04C3, 0x04C3), (0x04C5, 0x04C5), (0x04C7, 0x04C7),
   (0x04C9, 0x04C9), (0x04CB, 0x04CB), (0x04CD, 0x04CD), (0x04D0, 0x04D0), (0x04D2, 0x04D2),
   (0x04D4, 0x04D4), (0x04D6, 0x04D6), (0x04D8, 0x04D8), (0x04DA, 0x04DA), (0x04DC, 0x04DC),
   (0x04DE, 0x04DE), (0x04E0, 0x04E0), (0x04E2, 0x04E2), (0x04E4, 0x04E4), (0x04E6, 0x04E6),
   (0x04E8, 0x04E8), (0x04EA, 0x04EA), (0x04EC, 0x04EC), (0x04EE, 0x04EE), (0x04F0, 0x04F0),
   (0x04F2, 0x04F2), (0x04F4, 0x04F4), (0x04F6, 0x04F6), (0x04F8, 0x04F8), (0x04FA, 0x04FA),
   (0x04FC, 0x04FC), (0x04FE, 0x04FE), (0x0500, 0x0500), (0x0502, 0x0502), (0x0504, 0x0504),
   (0x0506, 0x0506), (0x0508, 0x0508), (0x050A, 0x050A), (0x050C, 0x050C), (0x050E, 0x050E),
   (0x0510, 0x0510), (0x0512, 0x0512), (0x0514, 0x0514), (0x0516, 0x0516), (0x0518, 0x0518),
   (0x051A, 0x051A), (0x051C, 0x051C), (0x051E, 0x051E), (0x0520, 0x0520), (0x0522, 0x0522),
   (0x0524, 0x0524), (0x0526, 0x0526), (0x0528, 0x0528), (0x052A, 0x052A), (0x052C, 0x052C),
   (0x052E, 0x052E), (0x0531, 0x0556), (0x10A0, 0x10C5), (0x10C7, 0x10C7), (0x10CD, 0x10CD),
   (0x13A0, 0x13F5), (0x1C90, 0x1CBA), (0x1CBD, 0x1CBF), (0x1E00, 0x1E00), (0x1E02, 0x1E02),
   (0x1E04, 0x1E04), (0x1E06, 0x1E06), (0x1E08, 0x1E08), (0x1E0A, 0x1E0A), (0x1E0C, 0x1E0C),
   (0x1E0E, 0x1E0E), (0x1E10, 0x1E10), (0x1E12, 0x1E12), (0x1E14, 0x1E14), (0x1E16, 0x1E16),
   (0x1E18, 0x1E18), (0x1E1A, 0x1E1A), (0x1E1C, 0x1E1C), (0x1E1E, 0x1E1E), (0x1E20, 0x1E20),
   (0x1E22, 0x1E22), (0x1E24, 0x1E24), (0x1E26, 0x1E26), (0x1E28, 0x1E28), (0x1E2A, 0x1E2A),
   (0x1E2C, 0x1E2C), (0x1E2E, 0x1E2E), (0x1E30, 0x1E30), (0x1E32, 0x1E32), (0x1E34, 0x1E34),
   (0x1E36, 0x1E36), (0x1E38, 0x1E38), (0x1E3A, 0x1E3A), (0x1E3C, 0x1E3C), (0x1E3E, 0x1E3E),
   (0x1E40, 0x1E40), (0x1E42, 0x1E42), (0x1E44, 0x1E44), (0x1E46, 0x1E46), (0x1E48, 0x1E48),
   (0x1E4A, 0x1E4A), (0x1E4C, 0x1E4C), (0x1E4E, 0x1E4E), (0x1E50, 0x1E50), (0x1E52, 0x1E52),
   (0x1E54, 0x1E54), (0x1E56, 0x1E56), (0x1E58, 0x1E58), (0x1E5A, 0x1E5A), (0x1E5C, 0x1E5C),
   (0x1E5E, 0x1E5E), (0x1E60, 0x1E60), (0x1E62, 0x1E62), (0x1E64, 0x1E64), (0x1E66, 0x1E66),
   (0x1E68, 0x1E68), (0x1E6A, 0x1E6A), (0x1E6C, 0x1E6C), (0x1E6E, 0x1E6E), (0x1E70, 0x1E70),
   (0x1E72, 0x1E72), (0x1E74, 0x1E74), (0x1E76, 0x1E76), (0x1E78, 0x1E78), (0x1E7A, 0x1E7A),
   (0x1E7C, 0x1E7C), (0x1E7E, 0x1E7E), (0x1E80, 0x1E80), (0x1E82, 0x1E82), (0x1E84, 0x1E84),
   (0x1E86, 0x1E86), (0x1E88, 0x1E88), (0x1E8A, 0x1E8A), (0x1E8C, 0x1E8C), (0x1E8E, 0x1E8E),
   (0x1E90, 0x1E90), (0x1E92, 0x1E92), (0x1E94, 0x1E94), (0x1E9E, 0x1E9E), (0x1EA0, 0x1EA0),
   (0x1EA2, 0x1EA2), (0x1EA4, 0x1EA4), (0x1EA6, 0x1EA6), (0x1EA8, 0x1EA8), (0x1EAA, 0x1EAA),
   (0x1EAC, 0x1EAC), (0x1EAE, 0x1EAE), (0x1EB0, 0x1EB0), (0x1EB2, 0x1EB2), (0x1EB4, 0x1EB4),
   (0x1EB6, 0x1EB6), (0x1EB8, 0x1EB8), (0x1EBA, 0x1EBA), (0x1EBC, 0x1EBC), (0x1EBE, 0x1EBE),
   (0x1EC0, 0x1EC0), (0x1EC2, 0x1EC2), (0x1EC4, 0x1EC4), (0x1EC6, 0x1EC6), (0x1EC8, 0x1EC8),
   (0x1ECA, 0x1ECA), (0x1ECC, 0x1ECC), (0x1ECE, 0x1ECE), (0x1ED0, 0x1ED0), (0x1ED2, 0x1ED2),
   (0x1ED4, 0x1ED4), (0x1ED6, 0x1ED6), (0x1ED8, 0x1ED8), (0x1EDA, 0x1EDA), (0x1EDC, 0x1EDC),
   (0x1EDE, 0x1EDE), (0x1EE0, 0x1EE0), (0x1EE2, 0x1EE2), (0x1EE4, 0x1EE4), (0x1EE6, 0x1EE6),
   (0x1EE8, 0x1EE8), (0x1EEA, 0x1EEA), (0x1EEC, 0x1EEC), (0x1EEE, 0x1EEE), (0x1EF0, 0x1EF0),
   (0x1EF2, 0x1EF2), (0x1EF4, 0x1EF4), (0x1EF6, 0x1EF6), (0x1EF8, 0x1EF8), (0x1EFA, 0x1EFA),
   (0x1EFC, 0x1EFC), (0x1EFE, 0x1EFE), (0x1F08, 0x1F0F), (0x1F18, 0x1F1D), (0x1F28, 0x1F2F),
   (0x1F38, 0x1F3F), (0x1F48, 0x1F4D), (0x1F59, 0x1F59), (0x1F5B, 0x1F5B), (0x1F5D, 0x1F5D),
   (0x1F5F, 0x1F5F), (0x1F68, 0x1F6F), (0x1FB8, 0x1FBB), (0x1FC8, 0x1FCB), (0x1FD8, 0x1FDB),
   (0x1FE8, 0x1FEC), (0x1FF8, 0x1FFB), (0x2102, 0x2102), (0x2107, 0x2107), (0x210B, 0x210D),
   (0x2110, 0x2112), (0x2115, 0x2115), (0x2119, 0x211D), (0x2124, 0x2124), (0x2126, 0x2126),
   (0x2128, 0x2128), (0x212A, 0x212D), (0x2130, 0x2133), (0x213E, 0x213F), (0x2145, 0x2145),
   (0x2183, 0x2183), (0x2C00, 0x2C2F), (0x2C60, 0x2C60), (0x2C62, 0x2C64), (0x2C67, 0x2C67),
   (0x2C69, 0x2C69), (0x2C6B, 0x2C6B), (0x2C6D, 0x2C70), (0x2C72, 0x2C72), (0x2C75, 0x2C75),
   (0x2C7E, 0x2C80), (0x2C82, 0x2C82), (0x2C84, 0x2C84), (0x2C86, 0x2C86), (0x2C88, 0x2C88),
   (0x2C8A, 0x2C8A), (0x2C8C, 0x2C8C), (0x2C8E, 0x2C8E), (0x2C90, 0x2C90), (0x2C92, 0x2C92),
   (0x2C94, 0x2C94), (0x2C96, 0x2C96), (0x2C98, 0x2C98), (0x2C9A, 0x2C9A), (0x2C9C, 0x2C9C),
   (0x2C9E, 0x2C9E), (0x2CA0, 0x2CA0), (0x2CA2, 0x2CA2), (0x2CA4, 0x2CA4), (0x2CA6, 0x2CA6),
   (0x2CA8, 0x2CA8), (0x2CAA, 0x2CAA), (0x2CAC, 0x2CAC), (0x2CAE, 0x2CAE), (0x2CB0, 0x2CB0),
   (0x2CB2, 0x2CB2), (0x2CB4, 0x2CB4), (0x2CB6, 0x2CB6), (0x2CB8, 0x2CB8), (0x2CBA, 0x2CBA),
   (0x2CBC, 0x2CBC), (0x2CBE, 0x2CBE), (0x2CC0, 0x2CC0), (0x2CC2, 0x2CC2), (0x2CC4, 0x2CC4),
   (0x2CC6, 0x2CC6), (0x2CC8, 0x2CC8), (0x2CCA, 0x2CCA), (0x2CCC, 0x2CCC), (0x2CCE, 0x2CCE),
   (0x2CD0, 0x2CD0), (0x2CD2, 0x2CD2), (0x2CD4, 0x2CD4), (0x2CD6, 0x2CD6), (0x2CD8, 0x2CD8),
   (0x2CDA, 0x2CDA), (0x2CDC, 0x2CDC), (0x2CDE, 0x2CDE), (0x2CE0, 0x2CE0), (0x2CE2, 0x2CE2),
   (0x2CEB, 0x2CEB), (0x2CED, 0x2CED), (0x2CF2, 0x2CF2), (0xA640, 0xA640), (0xA642, 0xA642),
   (0xA644, 0xA644), (0xA646, 0xA646), (0xA648, 0xA648), (0xA64A, 0xA64A), (0xA64C, 0xA64C),
   (0xA64E, 0xA64E), (0xA650, 0xA650), (0xA652, 0xA652), (0xA654, 0xA654), (0xA656, 0xA656),
   (0xA658, 0xA658), (0xA65A, 0xA65A), (0xA65C, 0xA65C), (0xA65E, 0xA65E), (0xA660, 0xA660),
   (0xA662, 0xA662), (0xA664, 0xA664), (0xA666, 0xA666), (0xA668, 0xA668), (0xA66A, 0xA66A),
   (0xA66C, 0xA66C), (0xA680, 0xA680), (0xA682, 0xA682), (0xA684, 0xA684), (0xA686, 0xA686),
   (0xA688, 0xA688), (0xA68A, 0xA68A), (0xA68C, 0xA68C), (0xA68E, 0xA68E), (0xA690, 0xA690),
   (0xA692, 0xA692), (0xA694, 0xA694), (0xA696, 0xA696), (0xA698, 0xA698), (0xA69A, 0xA69A),
   (0xA722, 0xA722), (0xA724, 0xA724), (0xA726, 0xA726), (0xA728, 0xA728), (0xA72A, 0xA72A),
   (0xA72C, 0xA72C), (0xA72E, 0xA72E), (0xA732, 0xA732), (0xA734, 0xA734), (0xA736, 0xA736),
   (0xA738, 0xA738), (0xA73A, 0xA73A), (0xA73C, 0xA73C), (0xA73E, 0xA73E), (0xA740, 0xA740),
   (0xA742, 0xA742), (0xA744, 0xA744), (0xA746, 0xA746), (0xA748, 0xA748), (0xA74A, 0xA74A),
   (0xA74C, 0xA74C), (0xA74E, 0xA74E), (0xA750, 0xA750), (0xA752, 0xA752), (0xA754, 0xA754),
   (0xA756, 0xA756), (0xA758, 0xA758), (0xA75A, 0xA75A), (0xA75C, 0xA75C), (0xA75E, 0xA75E),
   (0xA760, 0xA760), (0xA762, 0xA762), (0xA764, 0xA764), (0xA766, 0xA766), (0xA768, 0xA768),
   (0xA76A, 0xA76A), (0xA76C, 0xA76C), (0xA76E, 0xA76E), (0xA779, 0xA779), (0xA77B, 0xA77B),
   (0xA77D, 0xA77E), (0xA780, 0xA780), (0xA782, 0xA782), (0xA784, 0xA784), (0xA786, 0xA786),
   (0xA78B, 0xA78B), (0xA78D, 0xA78D), (0xA790, 0xA790), (0xA792, 0xA792), (0xA796, 0xA796),
   (0xA798, 0xA798), (0xA79A, 0xA79A), (0xA79C, 0xA79C), (0xA79E, 0xA79E), (0xA7A0, 0xA7A0),
   (0xA7A2, 0xA7A2), (0xA7A4, 0xA7A4), (0xA7A6, 0xA7A6), (0xA7A8, 0xA7A8), (0xA7AA, 0xA7AE),
   (0xA7B0, 0xA7B4), (0xA7B6, 0xA7B6), (0xA7B8, 0xA7B8), (0xA7BA, 0xA7BA), (0xA7BC, 0xA7BC),
   (0xA7BE, 0xA7BE), (0xA7C0, 0xA7C0), (0xA7C2, 0xA7C2), (0xA7C4, 0xA7C7), (0xA7C9, 0xA7C9),
   (0xA7D0, 0xA7D0), (0xA7D6, 0xA7D6), (0xA7D8, 0xA7D8), (0xA7F5, 0xA7F5), (0xFF21, 0xFF3A),
   (0x10400, 0x10427), (0x104B0, 0x104D3), (0x10570, 0x1057A), (0x1057C, 0x1058A),
   (0x1058C, 0x10592), (0x10594, 0x10595), (0x10C80, 0x10CB2), (0x118A0, 0x118BF),
   (0x16E40, 0x16E5F), (0x1D400, 0x1D419), (0x1D434, 0x1D44D), (0x1D468, 0x1D481),
   (0x1D49C, 0x1D49C), (0x1D49E, 0x1D49F), (0x1D4A2, 0x1D4A2), (0x1D4A5, 0x1D4A6),
   (0x1D4A9, 0x1D4AC), (0x1D4AE, 0x1D4B5), (0x1D4D0, 0x1D4E9), (0x1D504, 0x1D505),
   (0x1D507, 0x1D50A), (0x1D50D, 0x1D514), (0x1D516, 0x1D51C), (0x1D538, 0x1D539),
   (0x1D53B, 0x1D53E), (0x1D540, 0x1D544), (0x1D546, 0x1D546), (0x1D54A, 0x1D550),
   (0x1D56C, 0x1D585), (0x1D5A0, 0x1D5B9), (0x1D5D4, 0x1D5ED), (0x1D608, 0x1D621),
   (0x1D63C, 0x1D655), (0x1D670, 0x1D689), (0x1D6A8, 0x1D6C0), (0x1D6E2, 0x1D6FA),
   (0x1D71C, 0x1D734), (0x1D756, 0x1D76E), (0x1D790, 0x1D7A8), (0x1D7CA, 0x1D7CA),
   (0x1E900, 0x1E921)]

/-- Ranges of the table `unicode.Lower` (general category Ll, Unicode 14.0.0), as
inclusive pairs `(lo, hi)`. -/
def tableLl : List (Nat × Nat) :=
  [(0x0061, 0x007A), (0x00B5, 0x00B5), (0x00DF, 0x00F6), (0x00F8, 0x00FF), (0x0101, 0x0101),
   (0x0103, 0x0103), (0x0105, 0x0105), (0x0107, 0x0107), (0x0109, 0x0109), (0x010B, 0x010B),
   (0x010D, 0x010D), (0x010F, 0x010F), (0x0111, 0x0111), (0x0113, 0x0113), (0x0115, 0x0115),
   (0x0117, 0x0117), (0x0119, 0x0119), (0x011B, 0x011B), (0x011D, 0x011D), (0x011F, 0x011F),
   (0x0121, 0x0121), (0x0123, 0x0123), (0x0125, 0x0125), (0x0127, 0x0127), (0x0129, 0x0129),
   (0x012B, 0x012B), (0x012D, 0x012D), (0x012F, 0x012F), (0x0131, 0x0131), (0x0133, 0x0133),
   (0x0135, 0x0135), (0x0137, 0x0138), (0x013A, 0x013A), (0x013C, 0x013C), (0x013E, 0x013E),
   (0x0140, 0x0140), (0x0142, 0x0142), (0x0144, 0x0144), (0x0146, 0x0146), (0x0148, 0x0149),
   (0x014B, 0x014B), (0x014D, 0x014D), (0x014F, 0x014F), (0x0151, 0x0151), (0x0153, 0x0153),
   (0x0155, 0x0155), (0x0157, 0x0157), (0x0159, 0x0159), (0x015B, 0x015B), (0x015D, 0x015D),
   (0x015F, 0x015F), (0x0161, 0x0161), (0x0163, 0x0163), (0x0165, 0x0165), (0x0167, 0x0167),
   (0x0169, 0x0169), (0x016B, 0x016B), (0x016D, 0x016D), (0x016F, 0x016F), (0x0171, 0x0171),
   (0x0173, 0x0173), (0x0175, 0x0175), (0x0177, 0x0177), (0x017A, 0x017A), (0x017C, 0x017C),
   (0x017E, 0x0180), (0x0183, 0x0183), (0x0185, 0x0185), (0x0188, 0x0188), (0x018C, 0x018D),
   (0x0192, 0x0192), (0x0195, 0x0195), (0x0199, 0x019B), (0x019E, 0x019E), (0x01A1, 0x01A1),
   (0x01A3, 0x01A3), (0x01A5, 0x01A5), (0x01A8, 0x01A8), (0x01AA, 0x01AB), (0x01AD, 0x01AD),
   (0x01B0, 0x01B0), (0x01B4, 0x01B4), (0x01B6, 0x01B6), (0x01B9, 0x01BA), (0x01BD, 0x01BF),
   (0x01C6, 0x01C6), (0x01C9, 0x01C9), (0x01CC, 0x01CC), (0x01CE, 0x01CE), (0x01D0, 0x01D0),
   (0x01D2, 0x01D2), (0x01D4, 0x01D4), (0x01D6, 0x01D6), (0x01D8, 0x01D8), (0x01DA, 0x01DA),
   (0x01DC, 0x01DD), (0x01DF, 0x01DF), (0x01E1, 0x01E1), (0x01E3, 0x01E3), (0x01E5, 0x01E5),
   (0x01E7, 0x01E7), (0x01E9, 0x01E9), (0x01EB, 0x01EB), (0x01ED, 0x01ED), (0x01EF, 0x01F0),
   (0x01F3, 0x01F3), (0x01F5, 0x01F5), (0x01F9, 0x01F9), (0x01FB, 0x01FB), (0x01FD, 0x01FD),
   (0x01FF, 0x01FF), (0x0201, 0x0201), (0x0203, 0x0203), (0x0205, 0x0205), (0x0207, 0x0207),
   (0x0209, 0x0209), (0x020B, 0x020B), (0x020D, 0x020D), (0x020F, 0x020F), (0x0211, 0x0211),
   (0x0213, 0x0213), (0x0215, 0x0215), (0x0217, 0x0217), (0x0219, 0x0219), (0x021B, 0x021B),
   (0x021D, 0x021D), (0x021F, 0x021F), (0x0221, 0x0221), (0x0223, 0x0223), (0x0225, 0x0225),
   (0x0227, 0x0227), (0x0229, 0x0229), (0x022B, 0x022B), (0x022D, 0x022D), (0x022F, 0x022F),
   (0x0231, 0x0231), (0x0233, 0x0239), (0x023C, 0x023C), (0x023F, 0x0240), (0x0242, 0x0242),
   (0x0247, 0x0247), (0x0249, 0x0249), (0x024B, 0x024B), (0x024D, 0x024D), (0x024F, 0x0293),
   (0x0295, 0x02AF), (0x0371, 0x0371), (0x0373, 0x0373), (0x0377, 0x0377), (0x037B, 0x037D),
   (0x0390, 0x0390), (0x03AC, 0x03CE), (0x03D0, 0x03D1), (0x03D5, 0x03D7), (0x03D9, 0x03D9),
   (0x03DB, 0x03DB), (0x03DD, 0x03DD), (0x03DF, 0x03DF), (0x03E1, 0x03E1), (0x03E3, 0x03E3),
   (0x03E5, 0x03E5), (0x03E7, 0x03E7), (0x03E9, 0x03E9), (0x03EB, 0x03EB), (0x03ED, 0x03ED),
   (0x03EF, 0x03F3), (0x03F5, 0x03F5), (0x03F8, 0x03F8), (0x03FB, 0x03FC), (0x0430, 0x045F),
   (0x0461, 0x0461), (0x0463, 0x0463), (0x0465, 0x0465), (0x0467, 0x0467), (0x0469, 0x0469),
   (0x046B, 0x046B), (0x046D, 0x046D), (0x046F, 0x046F), (0x0471, 0x0471), (0x0473, 0x0473),
   (0x0475, 0x0475), (0x0477, 0x0477), (0x0479, 0x0479), (0x047B, 0x047B), (0x047D, 0x047D),
   (0x047F, 0x047F), (0x0481, 0x0481), (0x048B, 0x048B), (0x048D, 0x048D), (0x048F, 0x048F),
   (0x0491, 0x0491), (0x0493, 0x0493), (0x0495, 0x0495), (0x0497, 0x0497), (0x0499, 0x0499),
   (0x049B, 0x049B), (0x049D, 0x049D), (0x049F, 0x049F), (0x04A1, 0x04A1), (0x04A3, 0x04A3),
   (0x04A5, 0x04A5), (0x04A7, 0x04A7), (0x04A9, 0x04A9), (0x04AB, 0x04AB), (0x04AD, 0x04AD),
   (0x04AF, 0x04AF), (0x04B1, 0x04B1), (0x04B3, 0x04B3), (0x04B5, 0x04B5), (0x04B7, 0x04B7),
   (0x04B9, 0x04B9), (0x04BB, 0x04BB), (0x04BD, 0x04BD), (0x04BF, 0x04BF), (0x04C2, 0x04C2),
   (0x04C4, 0x04C4), (0x04C6, 0x04C6), (0x04C8, 0x04C8), (0x04CA, 0x04CA), (0x04CC, 0x04CC),
   (0x04CE, 0x04CF), (0x04D1, 0x04D1), (0x04D3, 0x04D3), (0x04D5, 0x04D5), (0x04D7, 0x04D7),
   (0x04D9, 0x04D9), (0x04DB, 0x04DB), (0x04DD, 0x04DD), (0x04DF, 0x04DF), (0x04E1, 0x04E1),
   (0x04E3, 0x04E3), (0x04E5, 0x04E5), (0x04E7, 0x04E7), (0x04E9, 0x04E9), (0x04EB, 0x04EB),
   (0x04ED, 0x04ED), (0x04EF, 0x04EF), (0x04F1, 0x04F1), (0x04F3, 0x04F3), (0x04F5, 0x04F5),
   (0x04F7, 0x04F7), (0x04F9, 0x04F9), (0x04FB, 0x04FB), (0x04FD, 0x04FD), (0x04FF, 0x04FF),
   (0x0501, 0x0501), (0x0503, 0x0503), (0x0505, 0x0505), (0x0507, 0x0507), (0x0509, 0x0509),
   (0x050B, 0x050B), (0x050D, 0x050D), (0x050F, 0x050F), (0x0511, 0x0511), (0x0513, 0x0513),
   (0x0515, 0x0515), (0x0517, 0x0517), (0x0519, 0x0519), (0x051B, 0x051B), (0x051D, 0x051D),
   (0x051F, 0x051F), (0x0521, 0x0521), (0x0523, 0x0523), (0x0525, 0x0525), (0x0527, 0x0527),
   (0x0529, 0x0529), (0x052B, 0x052B), (0x052D, 0x052D), (0x052F, 0x052F), (0x0560, 0x0588),
   (0x10D0, 0x10FA), (0x10FD, 0x10FF), (0x13F8, 0x13FD), (0x1C80, 0x1C88), (0x1D00, 0x1D2B),
   (0x1D6B, 0x1D77), (0x1D79, 0x1D9A), (0x1E01, 0x1E01), (0x1E03, 0x1E03), (0x1E05, 0x1E05),
   (0x1E07, 0x1E07), (0x1E09, 0x1E09), (0x1E0B, 0x1E0B), (0x1E0D, 0x1E0D), (0x1E0F, 0x1E0F),
   (0x1E11, 0x1E11), (0x1E13, 0x1E13), (0x1E15, 0x1E15), (0x1E17, 0x1E17), (0x1E19, 0x1E19),
   (0x1E1B, 0x1E1B), (0x1E1D, 0x1E1D), (0x1E1F, 0x1E1F), (0x1E21, 0x1E21), (0x1E23, 0x1E23),
   (0x1E25, 0x1E25), (0x1E27, 0x1E27), (0x1E29, 0x1E29), (0x1E2B, 0x1E2B), (0x1E2D, 0x1E2D),
   (0x1E2F, 0x1E2F), (0x1E31, 0x1E31), (0x1E33, 0x1E33), (0x1E35, 0x1E35), (0x1E37, 0x1E37),
   (0x1E39, 0x1E39), (0x1E3B, 0x1E3B), (0x1E3D, 0x1E3D), (0x1E3F, 0x1E3F), (0x1E41, 0x1E41),
   (0x1E43, 0x1E43), (0x1E45, 0x1E45), (0x1E47, 0x1E47), (0x1E49, 0x1E49), (0x1E4B, 0x1E4B),
   (0x1E4D, 0x1E4D), (0x1E4F, 0x1E4F), (0x1E51, 0x1E51), (0x1E53, 0x1E53), (0x1E55, 0x1E55),
   (0x1E57, 0x1E57), (0x1E59, 0x1E59), (0x1E5B, 0x1E5B), (0x1E5D, 0x1E5D), (0x1E5F, 0x1E5F),
   (0x1E61, 0x1E61), (0x1E63, 0x1E63), (0x1E65, 0x1E65), (0x1E67, 0x1E67), (0x1E69, 0x1E69),
   (0x1E6B, 0x1E6B), (0x1E6D, 0x1E6D), (0x1E6F, 0x1E6F), (0x1E71, 0x1E71), (0x1E73, 0x1E73),
   (0x1E75, 0x1E75), (0x1E77, 0x1E77), (0x1E79, 0x1E79), (0x1E7B, 0x1E7B), (0x1E7D, 0x1E7D),
   (0x1E7F, 0x1E7F), (0x1E81, 0x1E81), (0x1E83, 0x1E83), (0x1E85, 0x1E85), (0x1E87, 0x1E87),
   (0x1E89, 0x1E89), (0x1E8B, 0x1E8B), (0x1E8D, 0x1E8D), (0x1E8F, 0x1E8F), (0x1E91, 0x1E91),
   (0x1E93, 0x1E93), (0x1E95, 0x1E9D), (0x1E9F, 0x1E9F), (0x1EA1, 0x1EA1), (0x1EA3, 0x1EA3),
   (0x1EA5, 0x1EA5), (0x1EA7, 0x1EA7), (0x1EA9, 0x1EA9), (0x1EAB, 0x1EAB), (0x1EAD, 0x1EAD),
   (0x1EAF, 0x1EAF), (0x1EB1, 0x1EB1), (0x1EB3, 0x1EB3), (0x1EB5, 0x1EB5), (0x1EB7, 0x1EB7),
   (0x1EB9, 0x1EB9), (0x1EBB, 0x1EBB), (0x1EBD, 0x1EBD), (0x1EBF, 0x1EBF), (0x1EC1, 0x1EC1),
   (0x1EC3, 0x1EC3), (0x1EC5, 0x1EC5), (0x1EC7, 0x1EC7), (0x1EC9, 0x1EC9), (0x1ECB, 0x1ECB),
   (0x1ECD, 0x1ECD), (0x1ECF, 0x1ECF), (0x1ED1, 0x1ED1), (0x1ED3, 0x1ED3), (0x1ED5, 0x1ED5),
   (0x1ED7, 0x1ED7), (0x1ED9, 0x1ED9), (0x1EDB, 0x1EDB), (0x1EDD, 0x1EDD), (0x1EDF, 0x1EDF),
   (0x1EE1, 0x1EE1), (0x1EE3, 0x1EE3), (0x1EE5, 0x1EE5), (0x1EE7, 0x1EE7), (0x1EE9, 0x1EE9),
   (0x1EEB, 0x1EEB), (0x1EED, 0x1EED), (0x1EEF, 0x1EEF), (0x1EF1, 0x1EF1), (0x1EF3, 0x1EF3),
   (0x1EF5, 0x1EF5), (0x1EF7, 0x1EF7), (0x1EF9, 0x1EF9), (0x1EFB, 0x1EFB), (0x1EFD, 0x1EFD),
   (0x1EFF, 0x1F07), (0x1F10, 0x1F15), (0x1F20, 0x1F27), (0x1F30, 0x1F37), (0x1F40, 0x1F45),
   (0x1F50, 0x1F57), (0x1F60, 0x1F67), (0x1F70, 0x1F7D), (0x1F80, 0x1F87), (0x1F90, 0x1F97),
   (0x1FA0, 0x1FA7), (0x1FB0, 0x1FB4), (0x1FB6, 0x1FB7), (0x1FBE, 0x1FBE), (0x1FC2, 0x1FC4),
   (0x1FC6, 0x1FC7), (0x1FD0, 0x1FD3), (0x1FD6, 0x1FD7), (0x1FE0, 0x1FE7), (0x1FF2, 0x1FF4),
   (0x1FF6, 0x1FF7), (0x210A, 0x210A), (0x210E, 0x210F), (0x2113, 0x2113), (0x212F, 0x212F),
   (0x2134, 0x2134), (0x2139, 0x2139), (0x213C, 0x213D), (0x2146, 0x2149), (0x214E, 0x214E),
   (0x2184, 0x2184), (0x2C30, 0x2C5F), (0x2C61, 0x2C61), (0x2C65, 0x2C66), (0x2C68, 0x2C68),
   (0x2C6A, 0x2C6A), (0x2C6C, 0x2C6C), (0x2C71, 0x2C71), (0x2C73, 0x2C74), (0x2C76, 0x2C7B),
   (0x2C81, 0x2C81), (0x2C83, 0x2C83), (0x2C85, 0x2C85), (0x2C87, 0x2C87), (0x2C89, 0x2C89),
   (0x2C8B, 0x2C8B), (0x2C8D, 0x2C8D), (0x2C8F, 0x2C8F), (0x2C91, 0x2C91), (0x2C93, 0x2C93),
   (0x2C95, 0x2C95), (0x2C97, 0x2C97), (0x2C99, 0x2C99), (0x2C9B, 0x2C9B), (0x2C9D, 0x2C9D),
   (0x2C9F, 0x2C9F), (0x2CA1, 0x2CA1), (0x2CA3, 0x2CA3), (0x2CA5, 0x2CA5), (0x2CA7, 0x2CA7),
   (0x2CA9, 0x2CA9), (0x2CAB, 0x2CAB), (0x2CAD, 0x2CAD), (0x2CAF, 0x2CAF), (0x2CB1, 0x2CB1),
   (0x2CB3, 0x2CB3), (0x2CB5, 0x2CB5), (0x2CB7, 0x2CB7), (0x2CB9, 0x2CB9), (0x2CBB, 0x2CBB),
   (0x2CBD, 0x2CBD), (0x2CBF, 0x2CBF), (0x2CC1, 0x2CC1), (0x2CC3, 0x2CC3), (0x2CC5, 0x2CC5),
   (0x2CC7, 0x2CC7), (0x2CC9, 0x2CC9), (0x2CCB, 0x2CCB), (0x2CCD, 0x2CCD), (0x2CCF, 0x2CCF),
   (0x2CD1, 0x2CD1), (0x2CD3, 0x2CD3), (0x2CD5, 0x2CD5), (0x2CD7, 0x2CD7), (0x2CD9, 0x2CD9),
   (0x2CDB, 0x2CDB), (0x2CDD, 0x2CDD), (0x2CDF, 0x2CDF), (0x2CE1, 0x2CE1), (0x2CE3, 0x2CE4),
   (0x2CEC, 0x2CEC), (0x2CEE, 0x2CEE), (0x2CF3, 0x2CF3), (0x2D00, 0x2D25), (0x2D27, 0x2D27),
   (0x2D2D, 0x2D2D), (0xA641, 0xA641), (0xA643, 0xA643), (0xA645, 0xA645), (0xA647, 0xA647),
   (0xA649, 0xA649), (0xA64B, 0xA64B), (0xA64D, 0xA64D), (0xA64F, 0xA64F), (0xA651, 0xA651),
   (0xA653, 0xA653), (0xA655, 0xA655), (0xA657, 0xA657), (0xA659, 0xA659), (0xA65B, 0xA65B),
   (0xA65D, 0xA65D), (0xA65F, 0xA65F), (0xA661, 0xA661), (0xA663, 0xA663), (0xA665, 0xA665),
   (0xA667, 0xA667), (0xA669, 0xA669), (0xA66B, 0xA66B), (0xA66D, 0xA66D), (0xA681, 0xA681),
   (0xA683, 0xA683), (0xA685, 0xA685), (0xA687, 0xA687), (0xA689, 0xA689), (0xA68B, 0xA68B),
   (0xA68D, 0xA68D), (0xA68F, 0xA68F), (0xA691, 0xA691), (0xA693, 0xA693), (0xA695, 0xA695),
   (0xA697, 0xA697), (0xA699, 0xA699), (0xA69B, 0xA69B), (0xA723, 0xA723), (0xA725, 0xA725),
   (0xA727, 0xA727), (0xA729, 0xA729), (0xA72B, 0xA72B), (0xA72D, 0xA72D), (0xA72F, 0xA731),
   (0xA733, 0xA733), (0xA735, 0xA735), (0xA737, 0xA737), (0xA739, 0xA739), (0xA73B, 0xA73B),
   (0xA73D, 0xA73D), (0xA73F, 0xA73F), (0xA741, 0xA741), (0xA743, 0xA743), (0xA745, 0xA745),
   (0xA747, 0xA747), (0xA749, 0xA749), (0xA74B, 0xA74B), (0xA74D, 0xA74D), (0xA74F, 0xA74F),
   (0xA751, 0xA751), (0xA753, 0xA753), (0xA755, 0xA755), (0xA757, 0xA757), (0xA759, 0xA759),
   (0xA75B, 0xA75B), (0xA75D, 0xA75D), (0xA75F, 0xA75F), (0xA761, 0xA761), (0xA763, 0xA763),
   (0xA765, 0xA765), (0xA767, 0xA767), (0xA769, 0xA769), (0xA76B, 0xA76B), (0xA76D, 0xA76D),
   (0xA76F, 0xA76F), (0xA771, 0xA778), (0xA77A, 0xA77A), (0xA77C, 0xA77C), (0xA77F, 0xA77F),
   (0xA781, 0xA781), (0xA783, 0xA783), (0xA785, 0xA785), (0xA787, 0xA787), (0xA78C, 0xA78C),
   (0xA78E, 0xA78E), (0xA791, 0xA791), (0xA793, 0xA795), (0xA797, 0xA797), (0xA799, 0xA799),
   (0xA79B, 0xA79B), (0xA79D, 0xA79D), (0xA79F, 0xA79F), (0xA7A1, 0xA7A1), (0xA7A3, 0xA7A3),
   (0xA7A5, 0xA7A5), (0xA7A7, 0xA7A7), (0xA7A9, 0xA7A9), (0xA7AF, 0xA7AF), (0xA7B5, 0xA7B5),
   (0xA7B7, 0xA7B7), (0xA7B9, 0xA7B9), (0xA7BB, 0xA7BB), (0xA7BD, 0xA7BD), (0xA7BF, 0xA7BF),
   (0xA7C1, 0xA7C1), (0xA7C3, 0xA7C3), (0xA7C8, 0xA7C8), (0xA7CA, 0xA7CA), (0xA7D1, 0xA7D1),
   (0xA7D3, 0xA7D3), (0xA7D5, 0xA7D5), (0xA7D7, 0xA7D7), (0xA7D9, 0xA7D9), (0xA7F6, 0xA7F6),
   (0xA7FA, 0xA7FA), (0xAB30, 0xAB5A), (0xAB60, 0xAB68), (0xAB70, 0xABBF), (0xFB00, 0xFB06),
   (0xFB13, 0xFB17), (0xFF41, 0xFF5A), (0x10428, 0x1044F), (0x104D8, 0x104FB), (0x10597, 0x105A1),
   (0x105A3, 0x105B1), (0x105B3, 0x105B9), (0x105BB, 0x105BC), (0x10CC0, 0x10CF2),
   (0x118C0, 0x118DF), (0x16E60, 0x16E7F), (0x1D41A, 0x1D433), (0x1D44E, 0x1D454),
   (0x1D456, 0x1D467), (0x1D482, 0x1D49B), (0x1D4B6, 0x1D4B9), (0x1D4BB, 0x1D4BB),
   (0x1D4BD, 0x1D4C3), (0x1D4C5, 0x1D4CF), (0x1D4EA, 0x1D503), (0x1D51E, 0x1D537),
   (0x1D552, 0x1D56B), (0x1D586, 0x1D59F), (0x1D5BA, 0x1D5D3), (0x1D5EE, 0x1D607),
   (0x1D622, 0x1D63B), (0x1D656, 0x1D66F), (0x1D68A, 0x1D6A5), (0x1D6C2, 0x1D6DA),
   (0x1D6DC, 0x1D6E1), (0x1D6FC, 0x1D714), (0x1D716, 0x1D71B), (0x1D736, 0x1D74E),
   (0x1D750, 0x1D755), (0x1D770, 0x1D788), (0x1D78A, 0x1D78F), (0x1D7AA, 0x1D7C2),
   (0x1D7C4, 0x1D7C9), (0x1D7CB, 0x1D7CB), (0x1DF00, 0x1DF09), (0x1DF0B, 0x1DF1E),
   (0x1E922, 0x1E943)]

/-- Ranges of the table `unicode.Digit` (general category Nd, Unicode 14.0.0), as
inclusive pairs `(lo, hi)`. -/
def tableNd : List (Nat × Nat) :=
  [(0x0030, 0x0039), (0x0660, 0x0669), (0x06F0, 0x06F9), (0x07C0, 0x07C9), (0x0966, 0x096F),
   (0x09E6, 0x09EF), (0x0A66, 0x0A6F), (0x0AE6, 0x0AEF), (0x0B66, 0x0B6F), (0x0BE6, 0x0BEF),
   (0x0C66, 0x0C6F), (0x0CE6, 0x0CEF), (0x0D66, 0x0D6F), (0x0DE6, 0x0DEF), (0x0E50, 0x0E59),
   (0x0ED0, 0x0ED9), (0x0F20, 0x0F29), (0x1040, 0x1049), (0x1090, 0x1099), (0x17E0, 0x17E9),
   (0x1810, 0x1819), (0x1946, 0x194F), (0x19D0, 0x19D9), (0x1A80, 0x1A89), (0x1A90, 0x1A99),
   (0x1B50, 0x1B59), (0x1BB0, 0x1BB9), (0x1C40, 0x1C49), (0x1C50, 0x1C59), (0xA620, 0xA629),
   (0xA8D0, 0xA8D9), (0xA900, 0xA909), (0xA9D0, 0xA9D9), (0xA9F0, 0xA9F9), (0xAA50, 0xAA59),
   (0xABF0, 0xABF9), (0xFF10, 0xFF19), (0x104A0, 0x104A9), (0x10D30, 0x10D39), (0x11066, 0x1106F),
   (0x110F0, 0x110F9), (0x11136, 0x1113F), (0x111D0, 0x111D9), (0x112F0, 0x112F9),
   (0x11450, 0x11459), (0x114D0, 0x114D9), (0x11650, 0x11659), (0x116C0, 0x116C9),
   (0x11730, 0x11739), (0x118E0, 0x118E9), (0x11950, 0x11959), (0x11C50, 0x11C59),
   (0x11D50, 0x11D59), (0x11DA0, 0x11DA9), (0x16A60, 0x16A69), (0x16AC0, 0x16AC9),
   (0x16B50, 0x16B59), (0x1D7CE, 0x1D7FF), (0x1E140, 0x1E149), (0x1E2F0, 0x1E2F9),
   (0x1E950, 0x1E959), (0x1FBF0, 0x1FBF9)]


/-- The function `unicode.IsUpper`.  Below U+0100 Go reads its `properties` array,
whose upper case entries are the ranges of `tableLu` below U+0100. -/
def IsUpper (r : Nat) : Bool := inTable tableLu r

/-- The function `unicode.IsLower`.  Below U+0100 Go reads its `properties` array,
whose lower case entries are the ranges of `tableLl` below U+0100. -/
def IsLower (r : Nat) : Bool := inTable tableLl r

/-- The function `unicode.IsDigit`.  Below U+0100 Go tests `'0' <= r && r <= '9'`,
the one range of `tableNd` below U+0100. -/
def IsDigit (r : Nat) : Bool := inTable tableNd r

/-- The function `strings.ContainsRune`: whether the code point `r` is within `s`. -/
def ContainsRune (s : GoString) (r : Nat) : Bool := (runes s).contains r

/-! ## The validator -/

/-- The literal handed to `strings.ContainsRune` in the scan. -/
def specials : GoString := lit "!@#$%^&*()"

/-- The four locals `hasUpper, hasLower, hasDigit, hasSpecial`. -/
structure Flags where
  hasUpper : Bool
  hasLower : Bool
  hasDigit : Bool
  hasSpecial : Bool
  deriving DecidableEq, Repr

/-- One pass through the body of the scan: the tagless `switch` runs the first
case whose condition holds, and nothing when none does. -/
def scanStep (f : Flags) (char : Nat) : Flags :=
  if IsUpper char then { f with hasUpper := true }
  else if IsLower char then { f with hasLower := true }
  else if IsDigit char then { f with hasDigit := true }
  else if ContainsRune specials char then { f with hasSpecial := true }
  else f

/-- The flags after the loop `for _, char := range password`. -/
def scan (password : GoString) : Flags :=
  (runes password).foldl scanStep ⟨false, false, false, false⟩

/-- The function `validatePassword(password string) (bool, string)`. -/
def validatePassword (password : GoString) : Bool × String :=
  let f := scan password
  if password.length < 8 then
    (false, "Password must be at least 8 characters long.")
  else if !f.hasUpper then
    (false, "Password must contain at least one uppercase letter.")
  else if !f.hasLower then
    (false, "Password must contain at least one lowercase letter.")
  else if !f.hasDigit then
    (false, "Password must contain at least one digit.")
  else if !f.hasSpecial then
    (false, "Password must contain at least one special character (!@#$%^&*()).")
  else
    (true, "Password is strong.")

/-! ## What a password contains

The composition rules in words: a password meets a rule when one of the runes a
`range` loop visits belongs to the class. -/

/-- Some rune of the password is an upper case letter. -/
def containsUpper (password : GoString) : Bool := (runes password).any IsUpper

/-- Some rune of the password is a lower case letter. -/
def containsLower (password : GoString) : Bool := (runes password).any IsLower

/-- Some rune of the password is a decimal digit. -/
def containsDigit (password : GoString) : Bool := (runes password).any IsDigit

/-- Some rune of the password is one of the characters of `specials`. -/
def containsSpecial (password : GoString) : Bool :=
  (runes password).any (ContainsRune specials)

/-- The number of code points of a string (`utf8.RuneCountInString`): one per rune
a `range` loop visits. -/
def runeCount (s : GoString) : Nat := (runes s).length

/-! ## Reading the outcome of the generator -/

/-- The error a call returned, if it returned one. -/
def errorOf : GenOutcome → Option String
  | GenOutcome.returned _ err => err
  | GenOutcome.panicked => none

/-- The string a call returned, if it returned. -/
def passwordOf : GenOutcome → Option GoString
  | GenOutcome.returned password _ => some password
  | GenOutcome.panicked => none

/-- A random source that never fails: its `k`-th answer is `k` reduced below the
bound. -/
def cycleReader : RandReader := ⟨fun k max => Except.ok (k % max)⟩

/-- A random source that answers `n` calls like `cycleReader` and fails from then on. -/
def failAfter (n : Nat) : RandReader :=
  ⟨fun k max => if k < n then Except.ok (k % max) else Except.error "EOF"⟩

/-- A random source whose every answer is the index 0. -/
def zeroReader : RandReader := ⟨fun _ _ => Except.ok 0⟩

/-! ## Checking range tables -/

/-- A range table is in order: every range is non-empty and ends before the next
one starts. -/
def tableSorted : List (Nat × Nat) → Bool
  | [] => true
  | [p] => decide (p.1 ≤ p.2)
  | p :: q :: rest => decide (p.1 ≤ p.2) && decide (p.2 < q.1) && tableSorted (q :: rest)

/-- A merge walk over two ordered tables that succeeds when no range of one meets a
range of the other; `fuel` bounds the number of steps. -/
def tablesApart : Nat → List (Nat × Nat) → List (Nat × Nat) → Bool
  | _, [], _ => true
  | _, _ :: _, [] => true
  | 0, _ :: _, _ :: _ => false
  | fuel + 1, p :: s, q :: t =>
    if p.2 < q.1 then tablesApart fuel s (q :: t)
    else if q.2 < p.1 then tablesApart fuel (p :: s) t
    else false

/-! ## The range tables are in order and pairwise apart -/

theorem tableSorted_tail {p : Nat × Nat} {t : List (Nat × Nat)}
    (h : tableSorted (p :: t) = true) : tableSorted t = true := by
  cases t with
  | nil => rfl
  | cons q rest =>
    simp only [tableSorted, Bool.and_eq_true] at h
    exact h.2

theorem tableSorted_head_lt {t : List (Nat × Nat)} :
    ∀ {p : Nat × Nat}, tableSorted (p :: t) = true → ∀ q ∈ t, p.2 < q.1 := by
  induction t with
  | nil => intro p _ q hq; cases hq
  | cons q0 rest ih =>
    intro p h q hq
    have h0 := h
    simp only [tableSorted, Bool.and_eq_true, decide_eq_true_eq] at h0
    rcases List.mem_cons.mp hq with rfl | hq
    · exact h0.1.2
    · have h1 := ih (tableSorted_tail h) q hq
      have h2 : q0.1 ≤ q0.2 := by
        have := tableSorted_tail h
        cases rest with
        | nil => cases hq
        | cons q1 r1 =>
          simp only [tableSorted, Bool.and_eq_true, decide_eq_true_eq] at this
          exact this.1.1
      omega

theorem inTable_cons (p : Nat × Nat) (t : List (Nat × Nat)) (r : Nat) :
    inTable (p :: t) r = ((decide (p.1 ≤ r) && decide (r ≤ p.2)) || inTable t r) := by
  simp [inTable]

theorem not_inTable_of_lt {t : List (Nat × Nat)} {r : Nat}
    (h : ∀ q ∈ t, r < q.1) : inTable t r = false := by
  induction t with
  | nil => rfl
  | cons q rest ih =>
    rw [inTable_cons, ih (fun q hq => h q (List.mem_cons_of_mem _ hq))]
    have := h q (List.mem_cons_self _ _)
    simp; omega

theorem tablesApart_sound : ∀ (fuel : Nat) (s t : List (Nat × Nat)),
    tableSorted s = true → tableSorted t = true → tablesApart fuel s t = true →
    ∀ r, inTable s r = true → inTable t r = false := by
  intro fuel
  induction fuel with
  | zero =>
    intro s t _ _ h r hr
    cases s with
    | nil => simp [inTable] at hr
    | cons p s =>
      cases t with
      | nil => rfl
      | cons q t => simp [tablesApart] at h
  | succ fuel ih =>
    intro s t hs ht h r hr
    cases s with
    | nil => simp [inTable] at hr
    | cons p s =>
      cases t with
      | nil => rfl
      | cons q t =>
        simp only [tablesApart] at h
        split at h
        · rename_i hpq
          rw [inTable_cons] at hr
          rcases Bool.or_eq_true _ _ |>.mp hr with hp | hs1
          · simp only [Bool.and_eq_true, decide_eq_true_eq] at hp
            apply not_inTable_of_lt
            intro q1 hq1
            rcases List.mem_cons.mp hq1 with rfl | hq1
            · omega
            · have h3 := tableSorted_head_lt ht q1 hq1
              have h4 : q.1 ≤ q.2 := by
                cases t with
                | nil => cases hq1
                | cons q2 t2 =>
                  simp only [tableSorted, Bool.and_eq_true, decide_eq_true_eq] at ht
                  exact ht.1.1
              omega
          · exact ih s (q :: t) (tableSorted_tail hs) ht h r hs1
        · split at h
          · rename_i hnpq hqp
            rw [inTable_cons]
            have h5 := ih (p :: s) t hs (tableSorted_tail ht) h r hr
            rw [h5, Bool.or_false]
            -- every range of p :: s starts after q ends, so r lies beyond q
            have : q.2 < r := by
              rw [inTable_cons] at hr
              rcases Bool.or_eq_true _ _ |>.mp hr with hp | hs1
              · simp only [Bool.and_eq_true, decide_eq_true_eq] at hp; omega
              · by_contra hcon
                have hle : r ≤ q.2 := by omega
                have : inTable s r = false := by
                  apply not_inTable_of_lt
                  intro p1 hp1
                  have h3 := tableSorted_head_lt hs p1 hp1
                  have h4 : p.1 ≤ p.2 := by
                    cases s with
                    | nil => cases hp1
                    | cons p2 s2 =>
                      simp only [tableSorted, Bool.and_eq_true, decide_eq_true_eq] at hs
                      exact hs.1.1
                  omega
                rw [this] at hs1; cases hs1
            simp; omega
          · cases h

set_option maxRecDepth 100000 in
theorem tableLu_sorted : tableSorted tableLu = true := by decide!
set_option maxRecDepth 100000 in
theorem tableLl_sorted : tableSorted tableLl = true := by decide!
set_option maxRecDepth 100000 in
theorem tableNd_sorted : tableSorted tableNd = true := by decide!
set_option maxRecDepth 100000 in
theorem tableLu_Ll_apart : tablesApart 2000 tableLu tableLl = true := by decide!
set_option maxRecDepth 100000 in
theorem tableLu_Nd_apart : tablesApart 2000 tableLu tableNd = true := by decide!
set_option maxRecDepth 100000 in
theorem tableLl_Nd_apart : tablesApart 2000 tableLl tableNd = true := by decide!

/-! ## The character classes exclude one another -/

theorem upper_not_lower {r : Nat} (h : IsUpper r = true) : IsLower r = false :=
  tablesApart_sound 2000 tableLu tableLl tableLu_sorted tableLl_sorted tableLu_Ll_apart r h

theorem upper_not_digit {r : Nat} (h : IsUpper r = true) : IsDigit r = false :=
  tablesApart_sound 2000 tableLu tableNd tableLu_sorted tableNd_sorted tableLu_Nd_apart r h

theorem lower_not_digit {r : Nat} (h : IsLower r = true) : IsDigit r = false :=
  tablesApart_sound 2000 tableLl tableNd tableLl_sorted tableNd_sorted tableLl_Nd_apart r h

set_option maxRecDepth 100000 in
theorem runes_specials :
    runes specials = [0x21, 0x40, 0x23, 0x24, 0x25, 0x5E, 0x26, 0x2A, 0x28, 0x29] := by
  decide!

theorem containsRune_specials_iff (r : Nat) :
    ContainsRune specials r = true ↔
      r ∈ [0x21, 0x40, 0x23, 0x24, 0x25, 0x5E, 0x26, 0x2A, 0x28, 0x29] := by
  rw [ContainsRune, runes_specials]
  simp only [List.contains, List.elem_iff]

set_option maxRecDepth 100000 in
theorem specials_unclassed :
    ∀ r ∈ [0x21, 0x40, 0x23, 0x24, 0x25, 0x5E, 0x26, 0x2A, 0x28, 0x29],
      IsUpper r = false ∧ IsLower r = false ∧ IsDigit r = false := by
  decide!

theorem special_not_classed {r : Nat} (h : ContainsRune specials r = true) :
    IsUpper r = false ∧ IsLower r = false ∧ IsDigit r = false :=
  specials_unclassed r ((containsRune_specials_iff r).mp h)

/-! ## The scan -/

theorem scanStep_eq (f : Flags) (c : Nat) :
    scanStep f c =
      ⟨f.hasUpper || IsUpper c, f.hasLower || IsLower c, f.hasDigit || IsDigit c,
        f.hasSpecial || ContainsRune specials c⟩ := by
  unfold scanStep
  by_cases hu : IsUpper c = true
  · simp [hu, upper_not_lower hu, upper_not_digit hu]
    cases hs : ContainsRune specials c
    · simp
    · have := (special_not_classed hs).1
      rw [hu] at this; cases this
  · have hu0 : IsUpper c = false := by simpa using hu
    by_cases hl : IsLower c = true
    · simp [hu0, hl, lower_not_digit hl]
      cases hs : ContainsRune specials c
      · simp
      · have := (special_not_classed hs).2.1
        rw [hl] at this; cases this
    · have hl0 : IsLower c = false := by simpa using hl
      by_cases hd : IsDigit c = true
      · simp [hu0, hl0, hd]
        cases hs : ContainsRune specials c
        · simp
        · have := (special_not_classed hs).2.2
          rw [hd] at this; cases this
      · have hd0 : IsDigit c = false := by simpa using hd
        cases hs : ContainsRune specials c <;> simp [hu0, hl0, hd0]

theorem foldl_scanStep (cs : List Nat) : ∀ f : Flags,
    cs.foldl scanStep f =
      ⟨f.hasUpper || cs.any IsUpper, f.hasLower || cs.any IsLower,
        f.hasDigit || cs.any IsDigit, f.hasSpecial || cs.any (ContainsRune specials)⟩ := by
  induction cs with
  | nil => intro f; simp
  | cons c cs ih =>
    intro f
    rw [List.foldl_cons, ih, scanStep_eq]
    simp [Bool.or_assoc]

theorem scan_eq (password : GoString) :
    scan password =
      ⟨containsUpper password, containsLower password, containsDigit password,
        containsSpecial password⟩ := by
  simp [scan, foldl_scanStep, containsUpper, containsLower, containsDigit, containsSpecial]

/-- A `range` loop visits at most one rune per byte. -/
theorem runesFrom_length_le (s : GoString) : ∀ skip, (runesFrom skip s).length ≤ s.length := by
  induction s with
  | nil => intro skip; simp [runesFrom]
  | cons b rest ih =>
    intro skip
    cases skip with
    | zero =>
      unfold runesFrom
      split
      · have := ih 0; simp; omega
      · have := ih ((decoderune (b :: rest)).2 - 1); simp; omega
    | succ k =>
      have := ih k
      simp only [runesFrom, List.length_cons]; omega

theorem runeCount_le_length (s : GoString) : runeCount s ≤ s.length :=
  runesFrom_length_le s 0

/-- The validator in terms of what the password contains. -/
theorem validatePassword_eq (password : GoString) :
    validatePassword password =
      if password.length < 8 then
        (false, "Password must be at least 8 characters long.")
      else if containsUpper password = false then
        (false, "Password must contain at least one uppercase letter.")
      else if containsLower password = false then
        (false, "Password must contain at least one lowercase letter.")
      else if containsDigit password = false then
        (false, "Password must contain at least one digit.")
      else if containsSpecial password = false then
        (false, "Password must contain at least one special character (!@#$%^&*()).")
      else
        (true, "Password is strong.") := by
  simp only [validatePassword, scan_eq]
  simp

/-- The length message is returned exactly when the password has fewer than 8 bytes. -/
theorem length_message_iff (password : GoString) :
    (validatePassword password).2 = "Password must be at least 8 characters long." ↔
      password.length < 8 := by
  rw [validatePassword_eq]
  constructor
  · intro h
    by_contra hlen
    rw [if_neg hlen] at h
    split_ifs at h <;> revert h <;> decide
  · intro hlen
    rw [if_pos hlen]

/-! ## The generator loop -/

theorem charset_get?_of_lt {i : Nat} (h : i < charset.length) :
    charset.get? i = some (charset.getD i 0) := by
  rw [List.getD_eq_getElem?_getD, List.get?_eq_getElem?, List.getElem?_eq_getElem h]
  rfl

/-- When the calls numbered `reqs.length, …, reqs.length + n - 1` are answered with the
in-range indices `idx k`, the loop runs `n` times, appends the bytes of `charset` at
those indices and asks the source `n` times for an index below `len(charset)`. -/
theorem genLoop_ok (rd : RandReader) (idx : Nat → Nat) :
    ∀ (n : Nat) (password : GoString) (reqs : List Nat),
      (∀ k, reqs.length ≤ k → k < reqs.length + n →
        rd.draw k charset.length = Except.ok (idx k) ∧ idx k < charset.length) →
      genLoop rd n password reqs =
        (GenOutcome.returned
          (password ++ (List.range' reqs.length n).map (fun k => charset.getD (idx k) 0)) none,
          reqs ++ List.replicate n charset.length) := by
  intro n
  induction n with
  | zero => intro password reqs _; simp [genLoop]
  | succ n ih =>
    intro password reqs h
    have h0 := h reqs.length (Nat.le_refl _) (by omega)
    rw [genLoop, h0.1]
    simp only [charset_get?_of_lt h0.2]
    rw [ih]
    · simp [List.range'_succ, List.replicate_succ]
    · intro k hk1 hk2
      simp only [List.length_append, List.length_singleton] at hk1 hk2
      exact h k (by omega) (by omega)

/-- When the source fails on the call numbered `reqs.length + k` after answering the
`k` calls before it, the loop returns the empty string and the wrapped error. -/
theorem genLoop_fail (rd : RandReader) (e : String) :
    ∀ (k n : Nat) (password : GoString) (reqs : List Nat), k < n →
      (∀ j, j < k → ∃ i, i < charset.length ∧
        rd.draw (reqs.length + j) charset.length = Except.ok i) →
      rd.draw (reqs.length + k) charset.length = Except.error e →
      genLoop rd n password reqs =
        (GenOutcome.returned [] (some ("failed to generate random character: " ++ e)),
          reqs ++ List.replicate (k + 1) charset.length) := by
  intro k
  induction k with
  | zero =>
    intro n password reqs hn _ herr
    obtain ⟨m, rfl⟩ : ∃ m, n = m + 1 := ⟨n - 1, by omega⟩
    rw [genLoop]
    simp only [Nat.add_zero] at herr
    rw [herr]
    simp
  | succ k ih =>
    intro n password reqs hn hok herr
    obtain ⟨m, rfl⟩ : ∃ m, n = m + 1 := ⟨n - 1, by omega⟩
    obtain ⟨i, hi, hdraw⟩ := hok 0 (by omega)
    rw [genLoop]
    simp only [Nat.add_zero] at hdraw
    rw [hdraw]
    simp only [charset_get?_of_lt hi]
    rw [ih m _ _ (by omega)]
    · simp [List.replicate_succ]
    · intro j hj
      obtain ⟨i2, hi2, hd2⟩ := hok (j + 1) (by omega)
      refine ⟨i2, hi2, ?_⟩
      simp only [List.length_append, List.length_singleton]
      rw [← hd2]; congr 1; omega
    · simp only [List.length_append, List.length_singleton]
      rw [← herr]; congr 1; omega

/-- A string of bytes below `0x80` is ranged over byte by byte. -/
theorem runes_of_ascii (s : GoString) (h : ∀ b ∈ s, b.val < 0x80) :
    runes s = s.map (fun b => b.val) := by
  unfold runes
  induction s with
  | nil => rfl
  | cons b rest ih =>
    have hb := h b (List.mem_cons_self _ _)
    rw [runesFrom, if_pos hb, ih (fun c hc => h c (List.mem_cons_of_mem _ hc))]
    rfl

set_option maxRecDepth 100000 in
theorem charset_ascii : ∀ b ∈ charset, b.val < 0x80 := by decide!

theorem getD_charset_mem {i : Nat} (h : i < charset.length) : charset.getD i 0 ∈ charset := by
  rw [List.getD_eq_getElem?_getD, List.getElem?_eq_getElem h]
  exact List.getElem_mem h

/-! ## Claims about the generator -/

/-- C1: for every length of at least 8 and every random source that answers each
draw with an index below the requested bound, `generatePassword` returns a nil error
and a string of exactly `length` bytes, which are also `length` characters, each of
them a byte of `charset`. -/
theorem generatePassword_succeeds (rd : RandReader) (length : Int) (hlen : 8 ≤ length)
    (hrd : ∀ k max, 0 < max → ∃ i, i < max ∧ rd.draw k max = Except.ok i) :
    ∃ password : GoString,
      (generatePassword rd length).1 = GenOutcome.returned password none ∧
      (password.length : Int) = length ∧ (runeCount password : Int) = length ∧
      ∀ b ∈ password, b ∈ charset := by
  choose idx hidx using fun k => hrd k charset.length (by decide)
  have hloop := genLoop_ok rd idx length.toNat [] []
    (fun k _ _ => ⟨(hidx k).2, (hidx k).1⟩)
  have hmem : ∀ b ∈ (List.range' 0 length.toNat).map (fun k => charset.getD (idx k) 0),
      b ∈ charset := by
    intro b hb
    obtain ⟨k, _, rfl⟩ := List.mem_map.mp hb
    exact getD_charset_mem (hidx k).1
  refine ⟨(List.range' 0 length.toNat).map (fun k => charset.getD (idx k) 0), ?_, ?_, ?_, hmem⟩
  · rw [generatePassword, if_neg (by omega), hloop]; rfl
  · simp only [List.length_map, List.length_range']; omega
  · rw [runeCount, runes_of_ascii _ (fun b hb => charset_ascii b (hmem b hb))]
    simp only [List.length_map, List.length_range']; omega

/-- C1, at a concrete input: length 8 and the source `cycleReader`. -/
theorem generatePassword_succeeds_witness :
    ∃ password : GoString,
      (generatePassword cycleReader 8).1 = GenOutcome.returned password none ∧
      (password.length : Int) = 8 ∧ (runeCount password : Int) = 8 ∧
      ∀ b ∈ password, b ∈ charset :=
  generatePassword_succeeds cycleReader 8 (by decide)
    (fun k max hmax => ⟨k % max, Nat.mod_lt k hmax, rfl⟩)

/-- C2: for every integer length below 8, `generatePassword` returns the empty string
together with the invalid-length error, and makes no call to the random source. -/
theorem generatePassword_short (rd : RandReader) (length : Int) (hlen : length < 8) :
    generatePassword rd length =
      (GenOutcome.returned [] (some "password length must be at least 8 characters"), []) := by
  rw [generatePassword, if_pos hlen]

/-- C2, at a concrete input: length -3. -/
theorem generatePassword_short_witness :
    generatePassword cycleReader (-3) =
      (GenOutcome.returned [] (some "password length must be at least 8 characters"), []) :=
  generatePassword_short cycleReader (-3) (by decide)

/-- C7: for every length of at least 8 and every `k < length`, when the random source
answers the first `k` draws with indices in range and fails on the next one,
`generatePassword` returns the empty string and an error built from the source's
error. -/
theorem generatePassword_all_or_nothing (rd : RandReader) (length : Int) (k : Nat)
    (e : String) (hlen : 8 ≤ length) (hk : (k : Int) < length)
    (hok : ∀ j, j < k → ∃ i, i < charset.length ∧ rd.draw j charset.length = Except.ok i)
    (herr : rd.draw k charset.length = Except.error e) :
    (generatePassword rd length).1 =
      GenOutcome.returned [] (some ("failed to generate random character: " ++ e)) := by
  rw [generatePassword, if_neg (by omega),
    genLoop_fail rd e k length.toNat [] [] (by omega)
      (fun j hj => by simpa using hok j hj) (by simpa using herr)]

/-- C7, at a concrete input: length 8 and a source that fails on its fourth call. -/
theorem generatePassword_all_or_nothing_witness :
    (generatePassword (failAfter 3) 8).1 =
      GenOutcome.returned [] (some ("failed to generate random character: " ++ "EOF")) :=
  generatePassword_all_or_nothing (failAfter 3) 8 3 "EOF" (by decide) (by decide)
    (fun j hj => ⟨j % charset.length, Nat.mod_lt j (by decide), by simp [failAfter, hj]⟩)
    (by simp [failAfter])

/-- C8, as stated, fails: `charset` has 72 bytes, not 74, and the special-character
literal has 10, not 12. -/
theorem charset_not_74 : ¬ (charset.length = 74) ∧ ¬ (specials.length = 12) := by
  decide

set_option maxRecDepth 100000 in
/-- C8, amended: `charset` is a sequence of exactly 72 characters: the 26 lower case
letters, the 26 upper case letters, the 10 digits and the 10 characters of the
special-character literal, in that order. -/
theorem charset_layout :
    charset = lit "abcdefghijklmnopqrstuvwxyz" ++ lit "ABCDEFGHIJKLMNOPQRSTUVWXYZ" ++
      lit "0123456789" ++ specials ∧
    charset.length = 72 ∧ runeCount charset = 72 ∧
    (lit "abcdefghijklmnopqrstuvwxyz").length = 26 ∧
    (lit "ABCDEFGHIJKLMNOPQRSTUVWXYZ").length = 26 ∧
    (lit "0123456789").length = 10 ∧ specials.length = 10 ∧
    (∀ b ∈ lit "abcdefghijklmnopqrstuvwxyz", IsLower b.val = true) ∧
    (∀ b ∈ lit "ABCDEFGHIJKLMNOPQRSTUVWXYZ", IsUpper b.val = true) ∧
    (∀ b ∈ lit "0123456789", IsDigit b.val = true) := by
  decide!

/-- C9, as stated, fails: at length 7 the error's message is not the capitalised
string. -/
theorem generatePassword_message_not_capitalised :
    errorOf (generatePassword cycleReader 7).1 ≠
      some "Password length must be at least 8 characters" := by
  decide

/-- C9, amended: for every length below 8 the message carried by the returned error
is exactly "password length must be at least 8 characters". -/
theorem generatePassword_short_message (rd : RandReader) (length : Int) (hlen : length < 8) :
    errorOf (generatePassword rd length).1 =
      some "password length must be at least 8 characters" := by
  rw [generatePassword, if_pos hlen]; rfl

/-- C9 amended, at a concrete input: length 0. -/
theorem generatePassword_short_message_witness :
    errorOf (generatePassword cycleReader 0).1 =
      some "password length must be at least 8 characters" :=
  generatePassword_short_message cycleReader 0 (by decide)

/-! ## Claims about the validator -/

/-- The order of the rules as the code applies them.  A password of fewer than 8 bytes
gets the length message whatever else it lacks; and when the length message is not
returned, the result is the message of the first of the rules uppercase, lowercase,
digit, special that the password violates (and "Password is strong." when it
violates none). -/
theorem validatePassword_rule_order (password : GoString) :
    (password.length < 8 →
      validatePassword password = (false, "Password must be at least 8 characters long.")) ∧
    ((validatePassword password).2 ≠ "Password must be at least 8 characters long." →
      (containsUpper password = false →
        validatePassword password =
          (false, "Password must contain at least one uppercase letter.")) ∧
      (containsUpper password = true → containsLower password = false →
        validatePassword password =
          (false, "Password must contain at least one lowercase letter.")) ∧
      (containsUpper password = true → containsLower password = true →
        containsDigit password = false →
        validatePassword password = (false, "Password must contain at least one digit.")) ∧
      (containsUpper password = true → containsLower password = true →
        containsDigit password = true → containsSpecial password = false →
        validatePassword password =
          (false, "Password must contain at least one special character (!@#$%^&*()).")) ∧
      (containsUpper password = true → containsLower password = true →
        containsDigit password = true → containsSpecial password = true →
        validatePassword password = (true, "Password is strong."))) := by
  rw [validatePassword_eq]
  by_cases hlen : password.length < 8
  · simp [hlen]
  · simp only [hlen, if_false, false_implies, true_and]
    intro _
    refine ⟨?_, ?_, ?_, ?_, ?_⟩
    · intro hu; simp [hu]
    · intro hu hl; simp [hu, hl]
    · intro hu hl hd; simp [hu, hl, hd]
    · intro hu hl hd hs; simp [hu, hl, hd, hs]
    · intro hu hl hd hs; simp [hu, hl, hd, hs]

set_option maxRecDepth 100000 in
/-- C3: the code at a password of 5 code points and 9 bytes that has an upper case and a
lower case letter but no digit and no special character.  The length rule is the
first rule it fails, yet the length test counts bytes and passes, and the message
returned is that of a later rule, the digit rule. -/
theorem validatePassword_reports_later_rule :
    runeCount (lit "Aéééé") = 5 ∧ (lit "Aéééé").length = 9 ∧
    validatePassword (lit "Aéééé") = (false, "Password must contain at least one digit.") := by
  decide!

set_option maxRecDepth 100000 in
/-- C4: the code at a password of 6 code points and 9 bytes.  The length test counts
bytes, so the password is not rejected as too short: it is reported strong. -/
theorem validatePassword_counts_bytes :
    runeCount (lit "Aé1!éé") = 6 ∧ (lit "Aé1!éé").length = 9 ∧
    validatePassword (lit "Aé1!éé") = (true, "Password is strong.") := by
  decide!

/-- C5: every password of at least 8 code points that contains an upper case letter,
a lower case letter, a decimal digit and a character of the special set is reported
valid with the message "Password is strong.". -/
theorem validatePassword_strong (password : GoString) (hlen : 8 ≤ runeCount password)
    (hu : containsUpper password = true) (hl : containsLower password = true)
    (hd : containsDigit password = true) (hs : containsSpecial password = true) :
    validatePassword password = (true, "Password is strong.") := by
  have hbytes := runeCount_le_length password
  rw [validatePassword_eq, if_neg (by omega)]
  simp [hu, hl, hd, hs]

set_option maxRecDepth 100000 in
/-- C5, at a concrete input: "Valid1Pass!". -/
theorem validatePassword_strong_witness :
    validatePassword (lit "Valid1Pass!") = (true, "Password is strong.") :=
  validatePassword_strong (lit "Valid1Pass!") (by decide!) (by decide!) (by decide!)
    (by decide!) (by decide!)

/-- C6: rule 5 is membership in the literal set and nothing else.  A password none of
whose characters is one of the ten characters of the literal is never valid; and a
password of at least 8 characters with an upper case letter, a lower case letter and
a digit is valid as soon as one of its characters is in the literal. -/
theorem validatePassword_special_rule (password : GoString) :
    ((∀ c ∈ runes password, c ∉ "!@#$%^&*()".data.map Char.toNat) →
      (validatePassword password).1 = false) ∧
    (8 ≤ runeCount password → containsUpper password = true →
      containsLower password = true → containsDigit password = true →
      (∃ c ∈ runes password, c ∈ "!@#$%^&*()".data.map Char.toNat) →
      validatePassword password = (true, "Password is strong.")) := by
  have hset : ∀ c, ContainsRune specials c = true ↔ c ∈ "!@#$%^&*()".data.map Char.toNat :=
    fun c => by
      have hlist : "!@#$%^&*()".data.map Char.toNat =
          [0x21, 0x40, 0x23, 0x24, 0x25, 0x5E, 0x26, 0x2A, 0x28, 0x29] := by decide
      rw [hlist]; exact containsRune_specials_iff c
  constructor
  · intro h
    have hs : containsSpecial password = false := by
      rw [containsSpecial, List.any_eq_false]
      intro c hc
      rw [hset c]
      exact h c hc
    rw [validatePassword_eq]
    simp only [hs, if_true]
    split_ifs <;> rfl
  · intro hlen hu hl hd ⟨c, hc, hcs⟩
    have hs : containsSpecial password = true := by
      rw [containsSpecial, List.any_eq_true]
      exact ⟨c, hc, (hset c).mpr hcs⟩
    have hbytes := runeCount_le_length password
    rw [validatePassword_eq, if_neg (by omega)]
    simp [hu, hl, hd, hs]

set_option maxRecDepth 100000 in
/-- C6, at concrete inputs: "NoSpecial-123 _+" has punctuation and spaces but no
character of the literal and is not valid; "Abcdefg1(" is valid by its one "(". -/
theorem validatePassword_special_rule_witness :
    (validatePassword (lit "NoSpecial-123 _+")).1 = false ∧
    validatePassword (lit "Abcdefg1(") = (true, "Password is strong.") :=
  ⟨(validatePassword_special_rule (lit "NoSpecial-123 _+")).1 (by decide!),
    (validatePassword_special_rule (lit "Abcdefg1(")).2 (by decide!) (by decide!)
      (by decide!) (by decide!) (by decide!)⟩

/-- C10: `validatePassword` always returns one of six results, `true` with
"Password is strong." or `false` with one of the five rule messages, and the flag is
`true` exactly when the message is "Password is strong.". -/
theorem validatePassword_outcomes (password : GoString) :
    validatePassword password ∈
      [(true, "Password is strong."),
        (false, "Password must be at least 8 characters long."),
        (false, "Password must contain at least one uppercase letter."),
        (false, "Password must contain at least one lowercase letter."),
        (false, "Password must contain at least one digit."),
        (false, "Password must contain at least one special character (!@#$%^&*()).")] ∧
    ((validatePassword password).1 = true ↔
      (validatePassword password).2 = "Password is strong.") := by
  rw [validatePassword_eq]
  split_ifs <;> exact ⟨by decide, by decide⟩

/-! ## The generator as a function of the drawn indices -/

/-- When the first `length` calls are answered with the in-range indices `idx k`,
`generatePassword` returns the bytes of `charset` at those indices, in order, and has
asked `length` times for an index below `len(charset)`. -/
theorem generatePassword_eq_of_draws (rd : RandReader) (idx : Nat → Nat) (length : Int)
    (hlen : 8 ≤ length)
    (hrd : ∀ k, k < length.toNat →
      rd.draw k charset.length = Except.ok (idx k) ∧ idx k < charset.length) :
    generatePassword rd length =
      (GenOutcome.returned
        ((List.range' 0 length.toNat).map (fun k => charset.getD (idx k) 0)) none,
        List.replicate length.toNat charset.length) := by
  rw [generatePassword, if_neg (by omega),
    genLoop_ok rd idx length.toNat [] [] (fun k _ hk => hrd k (by simpa using hk))]
  simp

theorem generated_mem_charset (idx : Nat → Nat) (n : Nat)
    (h : ∀ k, k < n → idx k < charset.length) :
    ∀ b ∈ (List.range' 0 n).map (fun k => charset.getD (idx k) 0), b ∈ charset := by
  intro b hb
  obtain ⟨k, hk, rfl⟩ := List.mem_map.mp hb
  have hk2 : k < n := by
    have := (List.mem_range'_1.mp hk).2
    omega
  exact getD_charset_mem (h k hk2)

/-! ## Claims about the examples and the character classes -/

set_option maxRecDepth 100000 in
/-- C11: the results for the example inputs: "short1!" and "short" are invalid with
the length message, "alllower123!" with the uppercase message, "NoDigitsHere!" with the
digit message, "NoSpecial123" with the special-character message, and "Valid1Pass!" is
valid with "Password is strong.". -/
theorem validatePassword_examples :
    validatePassword (lit "short1!") =
      (false, "Password must be at least 8 characters long.") ∧
    validatePassword (lit "short") =
      (false, "Password must be at least 8 characters long.") ∧
    validatePassword (lit "alllower123!") =
      (false, "Password must contain at least one uppercase letter.") ∧
    validatePassword (lit "NoDigitsHere!") =
      (false, "Password must contain at least one digit.") ∧
    validatePassword (lit "NoSpecial123") =
      (false, "Password must contain at least one special character (!@#$%^&*()).") ∧
    validatePassword (lit "Valid1Pass!") = (true, "Password is strong.") := by
  decide!

set_option maxRecDepth 100000 in
/-- C12: the classes are decided by Unicode category: U+00C9 is an upper case letter,
U+00E9 a lower case letter and U+0663 a decimal digit, and the password "Éé٣!ÉéÉé",
none of whose runes is an ASCII letter or an ASCII digit, is valid with
"Password is strong.". -/
theorem validatePassword_unicode_classes :
    IsUpper 0xC9 = true ∧ IsLower 0xE9 = true ∧ IsDigit 0x663 = true ∧
    runes (lit "Éé٣!ÉéÉé") = [0xC9, 0xE9, 0x663, 0x21, 0xC9, 0xE9, 0xC9, 0xE9] ∧
    (∀ c ∈ runes (lit "Éé٣!ÉéÉé"),
      ¬ (0x41 ≤ c ∧ c ≤ 0x5A) ∧ ¬ (0x61 ≤ c ∧ c ≤ 0x7A) ∧ ¬ (0x30 ≤ c ∧ c ≤ 0x39)) ∧
    validatePassword (lit "Éé٣!ÉéÉé") = (true, "Password is strong.") := by
  decide!

/-- Whatever the random source does, a string returned with a nil error is the builder's
content followed by one byte of `charset` for each iteration of the loop. -/
theorem genLoop_returned (rd : RandReader) :
    ∀ (n : Nat) (password : GoString) (reqs : List Nat) (out : GoString) (log : List Nat),
      genLoop rd n password reqs = (GenOutcome.returned out none, log) →
      ∃ tail : GoString, out = password ++ tail ∧ tail.length = n ∧ ∀ b ∈ tail, b ∈ charset := by
  intro n
  induction n with
  | zero =>
    intro password reqs out log h
    simp only [genLoop, Prod.mk.injEq, GenOutcome.returned.injEq, and_true] at h
    exact ⟨[], by simp [h.1], rfl, by simp⟩
  | succ n ih =>
    intro password reqs out log h
    rw [genLoop] at h
    cases hd : rd.draw reqs.length charset.length with
    | error e => rw [hd] at h; simp at h
    | ok charIndex =>
      rw [hd] at h
      dsimp only at h
      cases hg : charset.get? charIndex with
      | none => rw [hg] at h; simp at h
      | some b =>
        rw [hg] at h
        obtain ⟨tail, h1, h2, h3⟩ := ih _ _ _ _ h
        refine ⟨b :: tail, by simp [h1], by simp [h2], ?_⟩
        intro x hx
        rcases List.mem_cons.mp hx with rfl | hx
        · exact List.get?_mem hg
        · exact h3 x hx

set_option maxRecDepth 100000 in
theorem isUpper_a : IsUpper (charset.getD 0 0).val = false := by decide!

/-! ## Claims about the generator's draws and its output -/

/-- C13, as stated, fails: at length 8 every call to the random source asks for an index
below 72, never below 74; and when the source fails on its fourth call the function
has made 4 draws, not 8. -/
theorem generatePassword_draws_not_74 :
    (generatePassword cycleReader 8).2 = [72, 72, 72, 72, 72, 72, 72, 72] ∧
    ¬ (74 ∈ (generatePassword cycleReader 8).2) ∧
    (generatePassword (failAfter 3) 8).2.length = 4 := by
  decide

/-- C13, amended: for every length of at least 8, when every draw is answered with an
in-range index `idx 0, idx 1, …`, `generatePassword` makes exactly `length` calls to
the random source, each asking for an index below `len(charset)`, which is 72, and
byte `i` of the result is the byte of `charset` at index `idx i`; so two runs whose
`i`-th draws agree give the same byte at position `i`, whatever the other draws are. -/
theorem generatePassword_draws (rd : RandReader) (idx : Nat → Nat) (length : Int)
    (hlen : 8 ≤ length)
    (hrd : ∀ k, k < length.toNat →
      rd.draw k charset.length = Except.ok (idx k) ∧ idx k < charset.length) :
    ∃ password : GoString,
      generatePassword rd length =
        (GenOutcome.returned password none, List.replicate length.toNat charset.length) ∧
      (((generatePassword rd length).2.length : Nat) : Int) = length ∧
      charset.length = 72 ∧ (password.length : Int) = length ∧
      (∀ i, i < length.toNat → password.get? i = charset.get? (idx i)) ∧
      ∀ (rd2 : RandReader) (idx2 : Nat → Nat),
        (∀ k, k < length.toNat →
          rd2.draw k charset.length = Except.ok (idx2 k) ∧ idx2 k < charset.length) →
        ∃ password2 : GoString,
          (generatePassword rd2 length).1 = GenOutcome.returned password2 none ∧
          ∀ i, i < length.toNat → idx2 i = idx i → password2.get? i = password.get? i := by
  have hget : ∀ (f : Nat → Nat), (∀ k, k < length.toNat → f k < charset.length) →
      ∀ i, i < length.toNat →
        ((List.range' 0 length.toNat).map (fun k => charset.getD (f k) 0)).get? i =
          charset.get? (f i) := by
    intro f hf i hi
    rw [List.get?_eq_getElem?, List.getElem?_map, List.getElem?_range' _ _ hi,
      charset_get?_of_lt (hf i hi)]
    simp
  have heq := generatePassword_eq_of_draws rd idx length hlen hrd
  refine ⟨_, heq, ?_, by decide, ?_, hget idx (fun k hk => (hrd k hk).2), ?_⟩
  · rw [heq]; simp only [List.length_replicate]; omega
  · simp only [List.length_map, List.length_range']; omega
  · intro rd2 idx2 hrd2
    refine ⟨_, by rw [generatePassword_eq_of_draws rd2 idx2 length hlen hrd2], ?_⟩
    intro i hi hsame
    rw [hget idx2 (fun k hk => (hrd2 k hk).2) i hi, hget idx (fun k hk => (hrd k hk).2) i hi,
      hsame]

/-- C13 amended, at a concrete input: length 8 and the source `cycleReader`, whose `k`-th answer
below 72 is `k % 72`. -/
theorem generatePassword_draws_witness :
    ∃ password : GoString,
      generatePassword cycleReader 8 =
        (GenOutcome.returned password none, List.replicate (8 : Int).toNat charset.length) ∧
      (((generatePassword cycleReader 8).2.length : Nat) : Int) = 8 ∧
      charset.length = 72 ∧ (password.length : Int) = 8 ∧
      (∀ i, i < (8 : Int).toNat → password.get? i = charset.get? (i % charset.length)) ∧
      ∀ (rd2 : RandReader) (idx2 : Nat → Nat),
        (∀ k, k < (8 : Int).toNat →
          rd2.draw k charset.length = Except.ok (idx2 k) ∧ idx2 k < charset.length) →
        ∃ password2 : GoString,
          (generatePassword rd2 8).1 = GenOutcome.returned password2 none ∧
          ∀ i, i < (8 : Int).toNat → idx2 i = i % charset.length →
            password2.get? i = password.get? i :=
  generatePassword_draws cycleReader (fun k => k % charset.length) 8 (by decide)
    (fun k _ => ⟨rfl, Nat.mod_lt k (by decide)⟩)

/-- C14: the first-match `switch` loses nothing.  After the loop each flag is set exactly
when the password has a rune of its class, because no character of the special literal
is an upper case letter, a lower case letter or a digit, and no rune belongs to two of
those three classes. -/
theorem scan_loses_nothing (password : GoString) :
    ((scan password).hasUpper = true ↔ ∃ c ∈ runes password, IsUpper c = true) ∧
    ((scan password).hasLower = true ↔ ∃ c ∈ runes password, IsLower c = true) ∧
    ((scan password).hasDigit = true ↔ ∃ c ∈ runes password, IsDigit c = true) ∧
    ((scan password).hasSpecial = true ↔
      ∃ c ∈ runes password, c ∈ "!@#$%^&*()".data.map Char.toNat) ∧
    (∀ c ∈ "!@#$%^&*()".data.map Char.toNat,
      IsUpper c = false ∧ IsLower c = false ∧ IsDigit c = false) ∧
    (∀ c, ¬ (IsUpper c = true ∧ IsLower c = true)) ∧
    (∀ c, ¬ (IsUpper c = true ∧ IsDigit c = true)) ∧
    (∀ c, ¬ (IsLower c = true ∧ IsDigit c = true)) := by
  have hlist : "!@#$%^&*()".data.map Char.toNat =
      [0x21, 0x40, 0x23, 0x24, 0x25, 0x5E, 0x26, 0x2A, 0x28, 0x29] := by decide
  rw [scan_eq, hlist]
  refine ⟨?_, ?_, ?_, ?_, specials_unclassed, ?_, ?_, ?_⟩
  · simp [containsUpper, List.any_eq_true]
  · simp [containsLower, List.any_eq_true]
  · simp [containsDigit, List.any_eq_true]
  · simp only [containsSpecial, List.any_eq_true, containsRune_specials_iff]
  · intro c ⟨h1, h2⟩; rw [upper_not_lower h1] at h2; cases h2
  · intro c ⟨h1, h2⟩; rw [upper_not_digit h1] at h2; cases h2
  · intro c ⟨h1, h2⟩; rw [lower_not_digit h1] at h2; cases h2

/-- C15: every password that `generatePassword` returns with a nil error for a length
of at least 8 has `length` bytes, which are `length` code points, and is never answered
by `validatePassword` with the length message. -/
theorem generated_passes_length_rule (rd : RandReader) (length : Int) (password : GoString)
    (hlen : 8 ≤ length)
    (hret : (generatePassword rd length).1 = GenOutcome.returned password none) :
    (password.length : Int) = length ∧ (runeCount password : Int) = length ∧
    (validatePassword password).2 ≠ "Password must be at least 8 characters long." := by
  rw [generatePassword, if_neg (by omega)] at hret
  obtain ⟨tail, h1, h2, h3⟩ :=
    genLoop_returned rd length.toNat [] [] password (genLoop rd length.toNat [] []).2
      (by rw [← hret])
  simp only [List.nil_append] at h1
  subst h1
  have hbytes : (password.length : Int) = length := by omega
  refine ⟨hbytes, ?_, ?_⟩
  · rw [runeCount, runes_of_ascii _ (fun b hb => charset_ascii b (h3 b hb)), List.length_map]
    exact hbytes
  · rw [Ne, length_message_iff]; omega

/-- C15, at a concrete input: length 8 and the source `cycleReader`, which yields
"abcdefgh". -/
theorem generated_passes_length_rule_witness :
    ((lit "abcdefgh").length : Int) = 8 ∧ (runeCount (lit "abcdefgh") : Int) = 8 ∧
    (validatePassword (lit "abcdefgh")).2 ≠ "Password must be at least 8 characters long." :=
  generated_passes_length_rule cycleReader 8 (lit "abcdefgh") (by decide) (by decide)

/-- C16: the generator does not guarantee the validator's policy.  For every length of
at least 8 the source that answers every draw with the in-range index 0 makes
`generatePassword` succeed with a string of `length` letters "a", which
`validatePassword` rejects for want of an upper case letter. -/
theorem generated_may_be_rejected (length : Int) (hlen : 8 ≤ length) :
    (∀ k max, 0 < max → ∃ i, i < max ∧ zeroReader.draw k max = Except.ok i) ∧
    (generatePassword zeroReader length).1 =
      GenOutcome.returned (List.replicate length.toNat (byte 0x61)) none ∧
    validatePassword (List.replicate length.toNat (byte 0x61)) =
      (false, "Password must contain at least one uppercase letter.") := by
  have hgen := generatePassword_eq_of_draws zeroReader (fun _ => 0) length hlen
    (fun k _ => ⟨rfl, show 0 < charset.length by decide⟩)
  have hpw : (List.range' 0 length.toNat).map (fun _ => charset.getD 0 0) =
      List.replicate length.toNat (byte 0x61) := by
    rw [List.eq_replicate_iff]
    refine ⟨by simp, ?_⟩
    intro b hb
    obtain ⟨k, _, rfl⟩ := List.mem_map.mp hb
    decide
  rw [hpw] at hgen
  refine ⟨fun k max hmax => ⟨0, hmax, rfl⟩, by rw [hgen], ?_⟩
  have hascii : ∀ b ∈ List.replicate length.toNat (byte 0x61), b.val < 0x80 := by
    intro b hb
    rw [List.eq_of_mem_replicate hb]
    decide
  have hup : containsUpper (List.replicate length.toNat (byte 0x61)) = false := by
    rw [containsUpper, runes_of_ascii _ hascii, List.any_eq_false]
    intro c hc
    obtain ⟨b, hb, rfl⟩ := List.mem_map.mp hc
    rw [List.eq_of_mem_replicate hb]
    simpa using isUpper_a
  rw [validatePassword_eq, if_neg (by simp only [List.length_replicate]; omega)]
  simp [hup]

/-- C16, at a concrete input: length 8. -/
theorem generated_may_be_rejected_witness :
    (∀ k max, 0 < max → ∃ i, i < max ∧ zeroReader.draw k max = Except.ok i) ∧
    (generatePassword zeroReader 8).1 =
      GenOutcome.returned (List.replicate (8 : Int).toNat (byte 0x61)) none ∧
    validatePassword (List.replicate (8 : Int).toNat (byte 0x61)) =
      (false, "Password must contain at least one uppercase letter.") :=
  generated_may_be_rejected 8 (by decide)

set_option maxRecDepth 100000 in
/-- C17: the characters of `charset` are pairwise distinct: the map from an index below
`len(charset)` to the emitted byte is injective, and every character of `charset` is
emitted for exactly one of the 72 indices, so a uniform index gives each character
the same weight. -/
theorem charset_distinct :
    charset.Nodup ∧
    (∀ i, i < charset.length → ∀ j, j < charset.length →
      charset.getD i 0 = charset.getD j 0 → i = j) ∧
    (∀ b ∈ charset,
      ((List.range charset.length).filter (fun i => charset.getD i 0 = b)).length = 1) := by
  decide!

/-! ## Ranging over a concatenation

Bytes appended to a string, or put in front of it, can change how the bytes at the
seam are decoded, but only where the string alone yields U+FFFD: every other rune of
the string is still visited. -/

theorem decoderune_cont (b : Byte) (rest : GoString) (h : isCont b = true) :
    decoderune (b :: rest) = (runeError, 1) := by
  simp only [isCont, Bool.and_eq_true, decide_eq_true_eq] at h
  have h1 : ¬ (0xC0 ≤ b.val ∧ b.val < 0xE0) := by omega
  have h2 : ¬ (0xE0 ≤ b.val ∧ b.val < 0xF0) := by omega
  have h3 : ¬ (0xF0 ≤ b.val ∧ b.val < 0xF8) := by omega
  simp only [decoderune, h1, h2, h3, if_false]

theorem cont_not_ascii {b : Byte} (h : isCont b = true) : ¬ b.val < 0x80 := by
  simp only [isCont, Bool.and_eq_true, decide_eq_true_eq] at h
  omega

/-- Continuation bytes alone are ranged over as U+FFFD. -/
theorem runesFrom_all_cont (s : GoString) (h : ∀ x ∈ s, isCont x = true) :
    ∀ k, ∀ c ∈ runesFrom k s, c = runeError := by
  induction s with
  | nil => intro k c hc; simp [runesFrom] at hc
  | cons b rest ih =>
    have hb := h b (List.mem_cons_self _ _)
    have hrest : ∀ x ∈ rest, isCont x = true := fun x hx => h x (List.mem_cons_of_mem _ hx)
    intro k c hc
    cases k with
    | succ k => exact ih hrest k c (by simpa [runesFrom] using hc)
    | zero =>
      rw [runesFrom, if_neg (cont_not_ascii hb), decoderune_cont b rest hb] at hc
      rcases List.mem_cons.mp hc with rfl | hc
      · rfl
      · exact ih hrest _ c hc

/-- The bytes a decoded rune occupies after its first are continuation bytes. -/
theorem decoderune_width (b : Byte) (t : GoString) :
    ∀ x ∈ t.take ((decoderune (b :: t)).2 - 1), isCont x = true := by
  rcases t with _ | ⟨s1, _ | ⟨s2, _ | ⟨s3, t⟩⟩⟩ <;>
    simp only [decoderune] <;> split_ifs <;> simp_all

/-- Appending bytes changes what is decoded at the front of a string only when the
string alone gives U+FFFD there and the rest of it is continuation bytes. -/
theorem decoderune_append (b : Byte) (rest q : GoString) :
    decoderune (b :: (rest ++ q)) = decoderune (b :: rest) ∨
      (decoderune (b :: rest) = (runeError, 1) ∧ ∀ x ∈ rest, isCont x = true) := by
  by_cases h2 : 0xC0 ≤ b.val ∧ b.val < 0xE0
  · rcases rest with _ | ⟨s1, rest⟩
    · right
      simp [decoderune, if_pos h2]
    · left
      simp only [List.cons_append, decoderune, if_pos h2]
  · by_cases h3 : 0xE0 ≤ b.val ∧ b.val < 0xF0
    · rcases rest with _ | ⟨s1, _ | ⟨s2, rest⟩⟩
      · right
        simp [decoderune, if_neg h2, if_pos h3]
      · by_cases hc : isCont s1 = true
        · right
          simp [decoderune, if_neg h2, if_pos h3, hc]
        · left
          rcases q with _ | ⟨q1, q⟩ <;> simp [decoderune, if_neg h2, if_pos h3, hc]
      · left
        simp only [List.cons_append, decoderune, if_neg h2, if_pos h3]
    · by_cases h4 : 0xF0 ≤ b.val ∧ b.val < 0xF8
      · rcases rest with _ | ⟨s1, _ | ⟨s2, _ | ⟨s3, rest⟩⟩⟩
        · right
          simp [decoderune, if_neg h2, if_neg h3, if_pos h4]
        · by_cases hc : isCont s1 = true
          · right
            simp [decoderune, if_neg h2, if_neg h3, if_pos h4, hc]
          · left
            rcases q with _ | ⟨q1, _ | ⟨q2, q⟩⟩ <;> simp [decoderune, if_neg h2, if_neg h3, if_pos h4, hc]
        · by_cases hc : isCont s1 = true ∧ isCont s2 = true
          · right
            simp [decoderune, if_neg h2, if_neg h3, if_pos h4, hc]
          · left
            have hc2 : (isCont s1 && isCont s2) = false := by
              cases h5 : isCont s1 <;> cases h6 : isCont s2 <;> simp_all
            rcases q with _ | ⟨q1, q⟩ <;> simp [decoderune, if_neg h2, if_neg h3, if_pos h4, hc2]
        · left
          simp only [List.cons_append, decoderune, if_neg h2, if_neg h3, if_pos h4]
      · left
        simp only [decoderune, if_neg h2, if_neg h3, if_neg h4]

/-- A rune other than U+FFFD that is visited in `p` is visited in `p ++ q`. -/
theorem mem_runesFrom_append {c : Nat} (hc : c ≠ runeError) (q : GoString) :
    ∀ (p : GoString) (k : Nat), c ∈ runesFrom k p → c ∈ runesFrom k (p ++ q) := by
  intro p
  induction p with
  | nil => intro k h; simp [runesFrom] at h
  | cons b rest ih =>
    intro k h
    cases k with
    | succ k =>
      rw [List.cons_append, runesFrom]
      exact ih k (by simpa [runesFrom] using h)
    | zero =>
      rw [List.cons_append, runesFrom]
      rw [runesFrom] at h
      by_cases hb : b.val < 0x80
      · rw [if_pos hb] at h ⊢
        rcases List.mem_cons.mp h with rfl | h
        · exact List.mem_cons_self _ _
        · exact List.mem_cons_of_mem _ (ih 0 h)
      · rw [if_neg hb] at h ⊢
        rcases decoderune_append b rest q with heq | ⟨herr, hcont⟩
        · rw [heq]
          rcases List.mem_cons.mp h with rfl | h
          · exact List.mem_cons_self _ _
          · exact List.mem_cons_of_mem _ (ih _ h)
        · rw [herr] at h
          rcases List.mem_cons.mp h with rfl | h
          · exact absurd rfl hc
          · exact absurd (runesFrom_all_cont rest hcont _ c h) hc

/-- Skipping continuation bytes drops no rune other than U+FFFD. -/
theorem mem_runesFrom_skip {c : Nat} (hc : c ≠ runeError) :
    ∀ (s : GoString) (k : Nat), (∀ x ∈ s.take k, isCont x = true) →
      c ∈ runesFrom 0 s → c ∈ runesFrom k s := by
  intro s
  induction s with
  | nil => intro k _ h; simp [runesFrom] at h
  | cons b rest ih =>
    intro k hk h
    cases k with
    | zero => exact h
    | succ k =>
      have hb : isCont b = true := hk b (by simp)
      rw [runesFrom, if_neg (cont_not_ascii hb), decoderune_cont b rest hb] at h
      rw [runesFrom]
      rcases List.mem_cons.mp h with rfl | h
      · exact absurd rfl hc
      · exact ih k (fun x hx => hk x (by simp [hx])) h

/-- A rune other than U+FFFD that is visited in `p` is visited in `q ++ p`. -/
theorem mem_runesFrom_prepend {c : Nat} (hc : c ≠ runeError) (p : GoString) :
    ∀ (q : GoString) (k : Nat), (∀ x ∈ (q ++ p).take k, isCont x = true) →
      c ∈ runesFrom 0 p → c ∈ runesFrom k (q ++ p) := by
  intro q
  induction q with
  | nil => intro k hk h; exact mem_runesFrom_skip hc p k hk h
  | cons b rest ih =>
    intro k hk h
    cases k with
    | succ k =>
      rw [List.cons_append, runesFrom]
      exact ih k (fun x hx => hk x (by simp [hx])) h
    | zero =>
      rw [List.cons_append, runesFrom]
      by_cases hb : b.val < 0x80
      · rw [if_pos hb]
        exact List.mem_cons_of_mem _ (ih 0 (by simp) h)
      · rw [if_neg hb]
        exact List.mem_cons_of_mem _ (ih _ (decoderune_width b (rest ++ p)) h)

/-- A class that excludes U+FFFD and is met in `p` is met in `p ++ q` and in `q ++ p`. -/
theorem any_runes_mono {f : Nat → Bool} (hf : f runeError = false) (p q : GoString)
    (h : (runes p).any f = true) :
    (runes (p ++ q)).any f = true ∧ (runes (q ++ p)).any f = true := by
  obtain ⟨c, hc, hfc⟩ := List.any_eq_true.mp h
  have hne : c ≠ runeError := by
    rintro rfl
    rw [hf] at hfc; cases hfc
  exact ⟨List.any_eq_true.mpr ⟨c, mem_runesFrom_append hne q p 0 hc, hfc⟩,
    List.any_eq_true.mpr ⟨c, mem_runesFrom_prepend hne p q 0 (by simp) hc, hfc⟩⟩

set_option maxRecDepth 100000 in
theorem runeError_unclassed :
    IsUpper runeError = false ∧ IsLower runeError = false ∧ IsDigit runeError = false ∧
    ContainsRune specials runeError = false := by
  decide!

/-- The validator accepts exactly the passwords of at least 8 bytes that meet the four
composition rules. -/
theorem validatePassword_valid_iff (password : GoString) :
    (validatePassword password).1 = true ↔
      8 ≤ password.length ∧ containsUpper password = true ∧ containsLower password = true ∧
      containsDigit password = true ∧ containsSpecial password = true := by
  rw [validatePassword_eq]
  split_ifs <;> simp_all

/-! ## Claims about extension -/

/-- C18: validity is monotone under extension: when `validatePassword` accepts `p`, it
accepts `p ++ q` and `q ++ p` for every string `q`. -/
theorem validatePassword_extension (p q : GoString)
    (h : (validatePassword p).1 = true) :
    validatePassword (p ++ q) = (true, "Password is strong.") ∧
    validatePassword (q ++ p) = (true, "Password is strong.") := by
  obtain ⟨hlen, hu, hl, hd, hs⟩ := (validatePassword_valid_iff p).mp h
  have hU := any_runes_mono runeError_unclassed.1 p q hu
  have hL := any_runes_mono runeError_unclassed.2.1 p q hl
  have hD := any_runes_mono runeError_unclassed.2.2.1 p q hd
  have hS := any_runes_mono runeError_unclassed.2.2.2 p q hs
  constructor
  · rw [validatePassword_eq, if_neg (by simp only [List.length_append]; omega)]
    simp [containsUpper, containsLower, containsDigit, containsSpecial, hU.1, hL.1, hD.1, hS.1]
  · rw [validatePassword_eq, if_neg (by simp only [List.length_append]; omega)]
    simp [containsUpper, containsLower, containsDigit, containsSpecial, hU.2, hL.2, hD.2, hS.2]

set_option maxRecDepth 100000 in
/-- C18, at a concrete input: "Valid1Pass!" extended by the bytes `A9 20`, which are not
well-formed UTF-8, behind and in front. -/
theorem validatePassword_extension_witness :
    validatePassword (lit "Valid1Pass!" ++ [0xA9, 0x20]) = (true, "Password is strong.") ∧
    validatePassword ([0xA9, 0x20] ++ lit "Valid1Pass!") = (true, "Password is strong.") :=
  validatePassword_extension (lit "Valid1Pass!") [0xA9, 0x20] (by decide!)

end Vp
